import Mathlib

/-!
# bosh-init: current-VM record store and VM manager

A shallow embedding of `config/vm_repo.go` and `deployment/vm/manager.go`.

Stateful Go code is written in explicit state-passing style over a `World`:
the state of the deployment-state store together with the ordered log of the
calls made to collaborators.  Collaborators whose implementation lives outside
these two files (the deployment-state service, the cloud, the UUID generator,
the file system, the manifest and the template library) are parameters.
`goTemplate` instantiates the template library with Go template execution on
`softlayerVM`, for the fragment that `etcHostsTemplate` uses.
-/

namespace BoshInit

/-! ## Errors -/

/-- Go `error` values, as far as the code can tell them apart: a value that implements
`bicloud.Error` (it has a `Type()`), a value produced by `bosherr.WrapError` /
`bosherr.WrapErrorf` (message plus cause), and any other error. A nil `error` is
`none : Option GoError`. -/
inductive GoError where
  | plain (msg : String)
  | cloud (errType : String) (message : String)
  | wrapped (msg : String) (cause : GoError)
deriving DecidableEq, Repr

/-- Modelled from the spec: `bosherr.WrapError(err, msg)` is declared in the vendored package
`bosh-utils/errors`, outside the files embedded here; it gives a new error that carries the
operation context `msg` and has `err` as its cause. -/
def WrapError (err : GoError) (msg : String) : GoError :=
  GoError.wrapped msg err

/-- Modelled from the spec: the constant `bicloud.NotImplementedError` is declared in package
`cloud`, outside the files embedded here; it is the error kind a cloud reports for an
operation it does not implement. No theorem depends on its value. -/
def NotImplementedError : String := "Bosh::Clouds::NotImplemented"

/-! ## Data model -/

/-- Modelled from the spec: the struct `DeploymentState` is declared in package `config`,
outside the files embedded here. It is the persisted deployment-state snapshot; the code reads
and writes `CurrentVMCID` and `CurrentAgentID`, and `otherFields` stands for every other field
of the snapshot, which this code only carries from `Load` to `Save`. -/
structure DeploymentState where
  CurrentVMCID : String
  CurrentAgentID : String
  otherFields : List (String × String)
deriving DecidableEq, Repr

/-- A `biproperty.Map`, kept as an association list. -/
abbrev PropertyMap := List (String × String)

/-- The literal `bicloud.VMMetadata` built by `Create`. -/
structure VMMetadata where
  Deployment : String
  Job : String
  Index : String
  Director : String
deriving DecidableEq, Repr

/-- The struct `softlayerVM` of `manager.go`. -/
structure softlayerVM where
  fullyQualifiedDomainName : String
  primaryBackendIpAddress : String
deriving DecidableEq, Repr

/-- One call to a collaborator, with its arguments. `DeleteVM` belongs to the cloud
interface; no code embedded here issues it. -/
inductive Call where
  | Debug (tag : String) (msg : String)
  | NetworkInterfaces (jobName : String)
  | ResourcePool (jobName : String)
  | Generate
  | CreateVM (agentID : String) (stemcellCID : String) (cloudProperties : PropertyMap)
      (networkInterfaces : List (String × PropertyMap)) (env : PropertyMap)
  | Load
  | Save (deploymentState : DeploymentState)
  | SetVMMetadata (cid : String) (metadata : VMMetadata)
  | FindVM (cid : String)
  | WriteFile (path : String) (content : String)
  | DeleteVM (cid : String)
deriving DecidableEq, Repr

/-- The world a method runs in: the state of the deployment-state store and the log of
collaborator calls made so far, oldest first. -/
structure World (σ : Type) where
  store : σ
  trace : List Call

/-- The world after one more logged call. -/
def World.record {σ : Type} (w : World σ) (c : Call) : World σ :=
  { store := w.store, trace := w.trace ++ [c] }

/-! ## The deployment-state service (a parameter) -/

/-- The interface `DeploymentStateService`: `Load() (DeploymentState, error)` and
`Save(DeploymentState) error`, each acting on a store state of type `σ`. -/
structure DeploymentStateService (σ : Type) where
  Load : σ → Except GoError DeploymentState × σ
  Save : DeploymentState → σ → Option GoError × σ

/-- A logged `Load()`. -/
def DeploymentStateService.doLoad {σ : Type} (svc : DeploymentStateService σ) (w : World σ) :
    Except GoError DeploymentState × World σ :=
  ((svc.Load w.store).1, { store := (svc.Load w.store).2, trace := w.trace ++ [Call.Load] })

/-- A logged `Save(deploymentState)`. -/
def DeploymentStateService.doSave {σ : Type} (svc : DeploymentStateService σ)
    (deploymentState : DeploymentState) (w : World σ) : Option GoError × World σ :=
  ((svc.Save deploymentState w.store).1,
    { store := (svc.Save deploymentState w.store).2,
      trace := w.trace ++ [Call.Save deploymentState] })

/-- A faithful state store, read through `snapshot`: `Load` succeeds with the current
snapshot and does not change it, `Save` succeeds and makes its argument the snapshot. -/
structure Faithful {σ : Type} (svc : DeploymentStateService σ) (snapshot : σ → DeploymentState) :
    Prop where
  load_ok : ∀ s, (svc.Load s).1 = Except.ok (snapshot s)
  load_keeps : ∀ s, snapshot (svc.Load s).2 = snapshot s
  save_ok : ∀ d s, (svc.Save d s).1 = none
  save_stores : ∀ d s, snapshot (svc.Save d s).2 = d

/-- The in-memory store: its state is the snapshot itself. -/
def memoryStore : DeploymentStateService DeploymentState where
  Load := fun s => (Except.ok s, s)
  Save := fun d _ => (none, d)

/-! ## `config/vm_repo.go` -/

/-- The struct `vMRepo`. -/
structure vMRepo (σ : Type) where
  deploymentStateService : DeploymentStateService σ

/-- The constructor `NewVMRepo`. -/
def NewVMRepo {σ : Type} (deploymentStateService : DeploymentStateService σ) : vMRepo σ :=
  { deploymentStateService := deploymentStateService }

/-- The method `vMRepo.FindCurrent`, returning `(cid, found, err)`. -/
def vMRepo.FindCurrent {σ : Type} (r : vMRepo σ) (w : World σ) :
    (String × Bool × Option GoError) × World σ :=
  match r.deploymentStateService.doLoad w with
  | (Except.error err, w1) => (("", false, some (WrapError err "Loading existing config")), w1)
  | (Except.ok deploymentState, w1) =>
    let currentVMCID := deploymentState.CurrentVMCID
    if currentVMCID ≠ "" then ((currentVMCID, true, none), w1)
    else (("", false, none), w1)

/-- The method `vMRepo.UpdateCurrent`. -/
def vMRepo.UpdateCurrent {σ : Type} (r : vMRepo σ) (cid : String) (w : World σ) :
    Option GoError × World σ :=
  match r.deploymentStateService.doLoad w with
  | (Except.error err, w1) => (some (WrapError err "Loading existing config"), w1)
  | (Except.ok deploymentState, w1) =>
    let deploymentState := { deploymentState with CurrentVMCID := cid }
    match r.deploymentStateService.doSave deploymentState w1 with
    | (some err, w2) => (some (WrapError err "Saving new config"), w2)
    | (none, w2) => (none, w2)

/-- The method `vMRepo.FindCurrentAgentId`, returning `(agentId, found, err)`. -/
def vMRepo.FindCurrentAgentId {σ : Type} (r : vMRepo σ) (w : World σ) :
    (String × Bool × Option GoError) × World σ :=
  match r.deploymentStateService.doLoad w with
  | (Except.error err, w1) => (("", false, some (WrapError err "Loading existing config")), w1)
  | (Except.ok deploymentState, w1) =>
    let currentAgentID := deploymentState.CurrentAgentID
    if currentAgentID ≠ "" then ((currentAgentID, true, none), w1)
    else (("", false, none), w1)

/-- The method `vMRepo.UpdateCurrentAgentId`. -/
def vMRepo.UpdateCurrentAgentId {σ : Type} (r : vMRepo σ) (agentId : String) (w : World σ) :
    Option GoError × World σ :=
  match r.deploymentStateService.doLoad w with
  | (Except.error err, w1) => (some (WrapError err "Loading existing config"), w1)
  | (Except.ok deploymentState, w1) =>
    let deploymentState := { deploymentState with CurrentAgentID := agentId }
    match r.deploymentStateService.doSave deploymentState w1 with
    | (some err, w2) => (some (WrapError err "Saving new config"), w2)
    | (none, w2) => (none, w2)

/-- The method `vMRepo.ClearCurrent`. -/
def vMRepo.ClearCurrent {σ : Type} (r : vMRepo σ) (w : World σ) : Option GoError × World σ :=
  match r.deploymentStateService.doLoad w with
  | (Except.error err, w1) => (some (WrapError err "Loading existing config"), w1)
  | (Except.ok deploymentState, w1) =>
    let deploymentState := { deploymentState with CurrentVMCID := "" }
    let deploymentState := { deploymentState with CurrentAgentID := "" }
    match r.deploymentStateService.doSave deploymentState w1 with
    | (some err, w2) => (some (WrapError err "Saving new config"), w2)
    | (none, w2) => (none, w2)

/-! ## Collaborators of `deployment/vm/manager.go` (parameters) -/

/-- Modelled from the spec: `bosherr.WrapErrorf(err, format, args...)`, declared next to
`WrapError`; `msg` is the formatted message. -/
def WrapErrorf (err : GoError) (msg : String) : GoError :=
  GoError.wrapped msg err

/-- A `bideplmanifest.ResourcePool`, as far as `Create` reads it. -/
structure ResourcePool where
  CloudProperties : PropertyMap
  Env : PropertyMap
deriving DecidableEq, Repr

/-- A `bideplmanifest.Manifest`: its `Name`, the result of `JobName()`, and the two fallible
lookups `NetworkInterfaces(jobName)` and `ResourcePool(jobName)`. -/
structure Manifest where
  Name : String
  JobName : String
  NetworkInterfaces : String → Except GoError (List (String × PropertyMap))
  ResourcePool : String → Except GoError ResourcePool

/-- A `bistemcell.CloudStemcell`: the result of `CID()`. -/
structure CloudStemcell where
  CID : String
deriving DecidableEq, Repr

/-- The part of the interface `bicloud.Cloud` that the manager calls. -/
structure Cloud where
  CreateVM : String → String → PropertyMap → List (String × PropertyMap) → PropertyMap →
    Except GoError String
  SetVMMetadata : String → VMMetadata → Option GoError
  FindVM : String → Except GoError (String × String)

/-- The interface `boshuuid.Generator`: the outcome of `Generate()`. -/
structure Generator where
  Generate : Except GoError String

/-- The part of `boshsys.FileSystem` that the manager calls: `WriteFile(path, content)`. -/
structure FileSystem where
  WriteFile : String → String → Option GoError

/-- The template library as `setupBoshInitEtcHosts` uses it: parsing the template text and
executing it on a `softlayerVM` gives the rendered bytes or an error. -/
structure Template where
  Execute : String → softlayerVM → Except GoError String

/-- Modelled from the spec: `NewVM` and the type `VM` are declared in `vm.go`, outside the
files embedded here; the handle is an object bound to a cloud identifier. -/
structure VM where
  cid : String
deriving DecidableEq, Repr

/-- Modelled from the spec: the constructor `NewVM`, which binds the handle to `cid` and
makes no call. -/
def NewVM (cid : String) : VM :=
  { cid := cid }

/-- Modelled from the spec: the struct `bicloud.VMMetadata` is declared in package `cloud`,
outside the files embedded here. Go formatting of a struct under the verb `%s` prints the
fields in the order of the declaration, taken here to be Director, Deployment, Job, Index. No
theorem depends on the order. -/
def VMMetadata.format (metadata : VMMetadata) : String :=
  "\x7b" ++ metadata.Director ++ " " ++ metadata.Deployment ++ " " ++ metadata.Job ++ " " ++
    metadata.Index ++ "\x7d"

/-- The type assertion `err.(bicloud.Error)` followed by `cloudErr.Type() == errType`. -/
def GoError.isCloudErrorOfType (err : GoError) (errType : String) : Bool :=
  match err with
  | GoError.cloud t _ => t == errType
  | _ => false

/-! ## `deployment/vm/manager.go` -/

/-- The struct `manager`: the collaborators that `FindCurrent` and `Create` call. `template`
is the template library, which the source reaches through a package rather than a field. -/
structure manager (σ : Type) where
  vmRepo : vMRepo σ
  cloud : Cloud
  uuidGenerator : Generator
  fs : FileSystem
  template : Template
  logTag : String

/-- The constructor `NewManager`. -/
def NewManager {σ : Type} (vmRepo : vMRepo σ) (cloud : Cloud) (uuidGenerator : Generator)
    (fs : FileSystem) (template : Template) : manager σ :=
  { vmRepo := vmRepo, cloud := cloud, uuidGenerator := uuidGenerator, fs := fs,
    template := template, logTag := "vmManager" }

/-- The constant `etcHostsTemplate`. -/
def etcHostsTemplate : String :=
  "127.0.0.1 localhost\n\x7b\x7b.primaryBackendIpAddress\x7d\x7d \x7b\x7b.fullyQualifiedDomainName\x7d\x7d\n"

/-- The method `manager.FindCurrent`, returning `(vm, found, err)`. -/
def manager.FindCurrent {σ : Type} (m : manager σ) (w : World σ) :
    (Option VM × Bool × Option GoError) × World σ :=
  match m.vmRepo.FindCurrent w with
  | ((_, _, some err), w1) =>
    ((none, false, some (WrapError err "Finding currently deployed vm")), w1)
  | ((vmCID, found, none), w1) =>
    if !found then ((none, false, none), w1)
    else ((some (NewVM vmCID), true, none), w1)

/-- The method `manager.createAndRecordVm`, returning `(cid, err)`. -/
def manager.createAndRecordVm {σ : Type} (m : manager σ) (agentID : String)
    (stemcell : CloudStemcell) (resourcePool : ResourcePool)
    (networkInterfaces : List (String × PropertyMap)) (w : World σ) :
    (String × Option GoError) × World σ :=
  let w1 := w.record (Call.CreateVM agentID stemcell.CID resourcePool.CloudProperties
    networkInterfaces resourcePool.Env)
  match m.cloud.CreateVM agentID stemcell.CID resourcePool.CloudProperties networkInterfaces
      resourcePool.Env with
  | Except.error err =>
    (("", some (WrapErrorf err
      ("Creating vm with stemcell cid \x27" ++ stemcell.CID ++ "\x27"))), w1)
  | Except.ok cid =>
    -- Record vm info immediately so we don't leak it
    match m.vmRepo.UpdateCurrent cid w1 with
    | (some err, w2) => (("", some (WrapError err "Updating current vm record")), w2)
    | (none, w2) => ((cid, none), w2)

/-- The method `manager.setupBoshInitEtcHosts`. -/
def manager.setupBoshInitEtcHosts {σ : Type} (m : manager σ) (vm : softlayerVM) (w : World σ) :
    Option GoError × World σ :=
  match m.template.Execute etcHostsTemplate vm with
  | Except.error err => (some (WrapError err "Generating config from template"), w)
  | Except.ok buffer =>
    let w1 := w.record (Call.WriteFile "/etc/hosts" buffer)
    match m.fs.WriteFile "/etc/hosts" buffer with
    | some err => (some (WrapError err "Writing to /etc/hosts"), w1)
    | none => (none, w1)

/-- The method `manager.Create`, returning `(vm, err)`. -/
def manager.Create {σ : Type} (m : manager σ) (stemcell : CloudStemcell)
    (deploymentManifest : Manifest) (w : World σ) : (Option VM × Option GoError) × World σ :=
  let jobName := deploymentManifest.JobName
  let w1 := (w.record (Call.NetworkInterfaces jobName)).record
    (Call.Debug m.logTag "Creating VM with network interfaces: %#v")
  match deploymentManifest.NetworkInterfaces jobName with
  | Except.error err => ((none, some (WrapError err "Getting network spec")), w1)
  | Except.ok networkInterfaces =>
    let w2 := w1.record (Call.ResourcePool jobName)
    match deploymentManifest.ResourcePool jobName with
    | Except.error err =>
      ((none, some (WrapErrorf err
        ("Getting resource pool for job \x27" ++ jobName ++ "\x27"))), w2)
    | Except.ok resourcePool =>
      let w3 := w2.record Call.Generate
      match m.uuidGenerator.Generate with
      | Except.error err => ((none, some (WrapError err "Generating agent ID")), w3)
      | Except.ok agentID =>
        match m.createAndRecordVm agentID stemcell resourcePool networkInterfaces w3 with
        | ((_, some err), w4) => ((none, some err), w4)
        | ((cid, none), w4) =>
          let metadata : VMMetadata :=
            { Deployment := deploymentManifest.Name, Job := deploymentManifest.JobName,
              Index := "0", Director := "bosh-init" }
          let w5 := w4.record (Call.SetVMMetadata cid metadata)
          let abort : Option GoError :=
            match m.cloud.SetVMMetadata cid metadata with
            | some err =>
              if err.isCloudErrorOfType NotImplementedError then
                none -- ignore it
              else
                some (WrapErrorf err ("Setting VM metadata to " ++ metadata.format))
            | none => none
          match abort with
          | some err => ((none, some err), w5)
          | none =>
            let w6 := (w5.record (Call.Debug m.logTag "WJQ: pre find_vm")).record
              (Call.FindVM cid)
            match m.cloud.FindVM cid with
            | Except.error err =>
              ((none, some (WrapErrorf err ("Fetching details of vm: " ++ cid))), w6)
            | Except.ok (hostname, privateIP) =>
              let softlayerVM : softlayerVM :=
                { fullyQualifiedDomainName := hostname, primaryBackendIpAddress := privateIP }
              match m.setupBoshInitEtcHosts softlayerVM w6 with
              | (some err, w7) => ((none, some (WrapErrorf err "Writing to /etc/hosts")), w7)
              | (none, w7) =>
                let w8 := w7.record (Call.Debug m.logTag "WJQ Post find_vm")
                ((some (NewVM cid), none), w8)

/-! ## Vocabulary for statements about `Create` -/

/-- The metadata literal that `Create` passes to `SetVMMetadata`. -/
def createMetadata (deploymentManifest : Manifest) : VMMetadata :=
  { Deployment := deploymentManifest.Name, Job := deploymentManifest.JobName, Index := "0",
    Director := "bosh-init" }

/-- The calls `Create` logs up to and including `CreateVM`, when steps 1 and 2 succeed. -/
def createVMCalls (logTag : String) (stemcell : CloudStemcell) (deploymentManifest : Manifest)
    (networkInterfaces : List (String × PropertyMap)) (resourcePool : ResourcePool)
    (agentID : String) : List Call :=
  [Call.NetworkInterfaces deploymentManifest.JobName,
    Call.Debug logTag "Creating VM with network interfaces: %#v",
    Call.ResourcePool deploymentManifest.JobName,
    Call.Generate,
    Call.CreateVM agentID stemcell.CID resourcePool.CloudProperties networkInterfaces
      resourcePool.Env]

/-- Whether a call goes to the deployment-state service. -/
def Call.isStoreCall : Call → Bool
  | Call.Load => true
  | Call.Save _ => true
  | _ => false

/-- The snapshot a call hands to `Save`, if the call is a `Save`. -/
def Call.saved : Call → Option DeploymentState
  | Call.Save d => some d
  | _ => none

/-- Whether a call is one of the cloud and file-system calls that may only follow the
recording of the cid: `SetVMMetadata`, `FindVM`, `WriteFile`, or a `DeleteVM`. -/
def Call.isLaterStep : Call → Bool
  | Call.SetVMMetadata _ _ => true
  | Call.FindVM _ => true
  | Call.WriteFile _ _ => true
  | Call.DeleteVM _ => true
  | _ => false

/-- The manager `m` with a cloud whose `SetVMMetadata` always succeeds. -/
def manager.withTaggingSucceeding {σ : Type} (m : manager σ) : manager σ :=
  { m with cloud := { m.cloud with SetVMMetadata := fun _ _ => none } }

/-- Every step of a run of `Create` succeeds, with the values each step yields: the two
manifest lookups, `Generate`, `CreateVM`, `UpdateCurrent`, `SetVMMetadata` (nil, or a cloud
error of kind `NotImplementedError`), `FindVM`, and the hosts-file step (rendering, then
`WriteFile`). -/
def manager.stepsSucceed {σ : Type} (m : manager σ) (stemcell : CloudStemcell)
    (man : Manifest) (w : World σ) (ni : List (String × PropertyMap)) (rp : ResourcePool)
    (agentID cid hostname privateIP buffer : String) : Prop :=
  man.NetworkInterfaces man.JobName = Except.ok ni ∧
  man.ResourcePool man.JobName = Except.ok rp ∧
  m.uuidGenerator.Generate = Except.ok agentID ∧
  m.cloud.CreateVM agentID stemcell.CID rp.CloudProperties ni rp.Env = Except.ok cid ∧
  (m.vmRepo.UpdateCurrent cid
    { store := w.store,
      trace := w.trace ++ createVMCalls m.logTag stemcell man ni rp agentID }).1 = none ∧
  (m.cloud.SetVMMetadata cid (createMetadata man) = none ∨
    ∃ message, m.cloud.SetVMMetadata cid (createMetadata man) =
      some (GoError.cloud NotImplementedError message)) ∧
  m.cloud.FindVM cid = Except.ok (hostname, privateIP) ∧
  m.template.Execute etcHostsTemplate
    { fullyQualifiedDomainName := hostname, primaryBackendIpAddress := privateIP } =
      Except.ok buffer ∧
  m.fs.WriteFile "/etc/hosts" buffer = none

/-! ## Scripted collaborators, for concrete runs -/

/-- A store over an in-memory snapshot whose `Load` and `Save` fail when scripted to; a failed
`Save` leaves the snapshot as it was. -/
def scriptedStore (loadErr saveErr : Option GoError) : DeploymentStateService DeploymentState where
  Load := fun s =>
    match loadErr with
    | some e => (Except.error e, s)
    | none => (Except.ok s, s)
  Save := fun d s =>
    match saveErr with
    | some e => (some e, s)
    | none => (none, d)

/-- A manifest named `dep` with job `job`, whose two lookups give the scripted outcomes. -/
def scriptedManifest (networkInterfaces : Except GoError (List (String × PropertyMap)))
    (resourcePool : Except GoError ResourcePool) : Manifest :=
  { Name := "dep", JobName := "job", NetworkInterfaces := fun _ => networkInterfaces,
    ResourcePool := fun _ => resourcePool }

/-- A manager whose collaborators give the scripted outcomes whatever their arguments. -/
def scriptedManager {σ : Type} (svc : DeploymentStateService σ) (generate : Except GoError String)
    (createVM : Except GoError String) (setVMMetadata : Option GoError)
    (findVM : Except GoError (String × String)) (execute : Except GoError String)
    (writeFile : Option GoError) : manager σ :=
  NewManager (NewVMRepo svc)
    { CreateVM := fun _ _ _ _ _ => createVM, SetVMMetadata := fun _ _ => setVMMetadata,
      FindVM := fun _ => findVM }
    { Generate := generate } { WriteFile := fun _ _ => writeFile }
    { Execute := fun _ _ => execute }

/-- The stemcell used in concrete runs. -/
def exampleStemcell : CloudStemcell := { CID := "stemcell-cid" }

/-- The manifest used in concrete runs: both lookups succeed. -/
def exampleManifest : Manifest :=
  scriptedManifest (Except.ok []) (Except.ok { CloudProperties := [], Env := [] })

/-- The world used in concrete runs: nothing recorded yet, nothing logged. -/
def emptyWorld : World DeploymentState :=
  { store := { CurrentVMCID := "", CurrentAgentID := "", otherFields := [] }, trace := [] }

/-- A manager over the in-memory store: the generator gives `a1`, the cloud creates `c1` and
accepts the metadata, and `FindVM` fails. -/
def findVMFailingManager : manager DeploymentState :=
  scriptedManager memoryStore (Except.ok "a1") (Except.ok "c1") none
    (Except.error (GoError.plain "vm not found")) (Except.error (GoError.plain "not reached"))
    none

/-- A manager over the in-memory store whose cloud fails to create the VM. -/
def createVMFailingManager : manager DeploymentState :=
  scriptedManager memoryStore (Except.ok "a1") (Except.error (GoError.plain "quota exceeded"))
    none (Except.error (GoError.plain "not reached")) (Except.error (GoError.plain "not reached"))
    none

/-- A manager over the in-memory store whose cloud creates `c1` and answers `SetVMMetadata`
with a cloud error of kind `NotImplementedError`; `FindVM` then fails. -/
def notImplementedManager : manager DeploymentState :=
  scriptedManager memoryStore (Except.ok "a1") (Except.ok "c1")
    (some (GoError.cloud NotImplementedError "set_vm_metadata is not implemented"))
    (Except.error (GoError.plain "vm not found")) (Except.error (GoError.plain "not reached"))
    none

/-- A manager over the in-memory store whose cloud creates `c1` and answers `SetVMMetadata`
with an error that is not a cloud error. -/
def metadataFailingManager : manager DeploymentState :=
  scriptedManager memoryStore (Except.ok "a1") (Except.ok "c1")
    (some (GoError.plain "tagging failed"))
    (Except.error (GoError.plain "not reached")) (Except.error (GoError.plain "not reached"))
    none

/-- A manager whose cloud creates `c1` over a store whose `Save` fails. -/
def saveFailingManager : manager DeploymentState :=
  scriptedManager (scriptedStore none (some (GoError.plain "disk full"))) (Except.ok "a1")
    (Except.ok "c1") none (Except.ok ("vm-1.example", "10.0.0.5"))
    (Except.error (GoError.plain "not reached")) none

/-- A repo over a store whose `Load` fails. -/
def loadFailingRepo : vMRepo DeploymentState :=
  NewVMRepo (scriptedStore (some (GoError.plain "unreadable state file")) none)

/-- A repo over a store whose `Load` succeeds and whose `Save` fails. -/
def saveFailingRepo : vMRepo DeploymentState :=
  NewVMRepo (scriptedStore none (some (GoError.plain "disk full")))

/-- A world over a store that holds `c0` and `a0`, with nothing logged. -/
def recordedWorld : World DeploymentState :=
  { store := { CurrentVMCID := "c0", CurrentAgentID := "a0", otherFields := [] }, trace := [] }

/-! ## Go template execution, for the fragment `etcHostsTemplate` uses -/

/-- A node of a parsed template: literal text, or the field action written `.name` between
double braces. -/
inductive TemplateNode where
  | text (s : String)
  | field (name : String)
deriving DecidableEq, Repr

/-- Where the template lexer is: in literal text, after one opening brace, inside an action,
or after one closing brace inside an action. -/
inductive LexState where
  | text
  | open1
  | action
  | close1
deriving DecidableEq, Repr

/-- The text node for the pending characters, none when there are no characters. -/
def textNode (pending : List Char) : List TemplateNode :=
  if pending = [] then [] else [TemplateNode.text (String.mk pending)]

/-- The node for the content of an action: a dot followed by a field name. Other actions are
outside the fragment and do not parse. -/
def actionNode (content : List Char) : Option TemplateNode :=
  match content with
  | '.' :: name =>
    if name ≠ [] ∧ name.all (fun c => c.isAlphanum || c = '_') then
      some (TemplateNode.field (String.mk name))
    else none
  | _ => none

/-- Lexing and parsing of a template text: literal text is kept as it is, and what stands
between double braces is an action. -/
def parseNodes : List Char → LexState → List Char → Option (List TemplateNode)
  | [], LexState.text, pending => some (textNode pending)
  | [], LexState.open1, pending => some (textNode (pending ++ ['{']))
  | [], LexState.action, _ => none
  | [], LexState.close1, _ => none
  | c :: rest, LexState.text, pending =>
    if c = '{' then parseNodes rest LexState.open1 pending
    else parseNodes rest LexState.text (pending ++ [c])
  | c :: rest, LexState.open1, pending =>
    if c = '{' then (parseNodes rest LexState.action []).map (fun ns => textNode pending ++ ns)
    else parseNodes rest LexState.text (pending ++ ['{', c])
  | c :: rest, LexState.action, pending =>
    if c = '}' then parseNodes rest LexState.close1 pending
    else parseNodes rest LexState.action (pending ++ [c])
  | c :: rest, LexState.close1, pending =>
    if c = '}' then
      match actionNode pending with
      | some n => (parseNodes rest LexState.text []).map (fun ns => n :: ns)
      | none => none
    else parseNodes rest LexState.action (pending ++ ['}', c])

/-- The call `template.New(name).Parse(text)`, as the list of nodes or none. -/
def Parse (text : String) : Option (List TemplateNode) :=
  parseNodes text.data LexState.text []

/-- Go reflection on `softlayerVM`: the value of the struct field called `name`, if the struct
has such a field. -/
def softlayerVM.fieldByName (vm : softlayerVM) (name : String) : Option String :=
  if name = "fullyQualifiedDomainName" then some vm.fullyQualifiedDomainName
  else if name = "primaryBackendIpAddress" then some vm.primaryBackendIpAddress
  else none

/-- Go's rule for exported identifiers: the name starts with an upper-case letter. -/
def isExported (name : String) : Bool :=
  match name.data with
  | c :: _ => c.isUpper
  | [] => false

/-- Evaluation of a field action on a `softlayerVM`, as the template package does it: the field
is looked up by reflection, and a field that is not exported cannot be read. The messages are
the final part of the package's messages, without the template name and position. -/
def evalField (vm : softlayerVM) (name : String) : Except GoError String :=
  match vm.fieldByName name with
  | some value =>
    if isExported name then Except.ok value
    else Except.error (GoError.plain
      (name ++ " is an unexported field of struct type vm.softlayerVM"))
  | none =>
    Except.error (GoError.plain ("can\x27t evaluate field " ++ name ++ " in type vm.softlayerVM"))

/-- Execution of parsed nodes on a `softlayerVM`, appending to `buffer`; it stops at the first
action that fails. -/
def execNodes : List TemplateNode → softlayerVM → String → Except GoError String
  | [], _, buffer => Except.ok buffer
  | TemplateNode.text s :: rest, vm, buffer => execNodes rest vm (buffer ++ s)
  | TemplateNode.field name :: rest, vm, buffer =>
    match evalField vm name with
    | Except.ok value => execNodes rest vm (buffer ++ value)
    | Except.error e => Except.error e

/-- The Go template package as `setupBoshInitEtcHosts` uses it: `Parse`, then `Execute` into an
empty buffer. A text that does not parse, on which `template.Must` panics, is given as an
error; `etcHostsTemplate` parses. -/
def goTemplate : Template where
  Execute := fun text vm =>
    match Parse text with
    | some nodes => execNodes nodes vm ""
    | none => Except.error (GoError.plain "template: parse error")

/-- Whether a call is a `WriteFile`. -/
def Call.isWriteFile : Call → Bool
  | Call.WriteFile _ _ => true
  | _ => false

/-- A manager over the in-memory store all of whose collaborators succeed, with the Go
template package as the renderer; `FindVM` gives `vm-1.example` and `10.0.0.5`. -/
def goTemplateManager : manager DeploymentState :=
  NewManager (NewVMRepo memoryStore)
    { CreateVM := fun _ _ _ _ _ => Except.ok "c1", SetVMMetadata := fun _ _ => none,
      FindVM := fun _ => Except.ok ("vm-1.example", "10.0.0.5") }
    { Generate := Except.ok "a1" } { WriteFile := fun _ _ => none } goTemplate

/-! ## Characterisation of the record-store operations -/

section RepoLemmas

variable {σ : Type}

theorem FindCurrent_of_load (r : vMRepo σ) (w : World σ) (s : DeploymentState)
    (hl : (r.deploymentStateService.Load w.store).1 = Except.ok s) :
    r.FindCurrent w =
      ((if s.CurrentVMCID ≠ "" then (s.CurrentVMCID, true, none) else ("", false, none)),
        { store := (r.deploymentStateService.Load w.store).2, trace := w.trace ++ [Call.Load] }) := by
  unfold vMRepo.FindCurrent DeploymentStateService.doLoad
  simp only [hl]
  split <;> rfl

theorem FindCurrentAgentId_of_load (r : vMRepo σ) (w : World σ) (s : DeploymentState)
    (hl : (r.deploymentStateService.Load w.store).1 = Except.ok s) :
    r.FindCurrentAgentId w =
      ((if s.CurrentAgentID ≠ "" then (s.CurrentAgentID, true, none) else ("", false, none)),
        { store := (r.deploymentStateService.Load w.store).2, trace := w.trace ++ [Call.Load] }) := by
  unfold vMRepo.FindCurrentAgentId DeploymentStateService.doLoad
  simp only [hl]
  split <;> rfl

theorem UpdateCurrent_of_load (r : vMRepo σ) (cid : String) (w : World σ) (s : DeploymentState)
    (hl : (r.deploymentStateService.Load w.store).1 = Except.ok s) :
    r.UpdateCurrent cid w =
      (((r.deploymentStateService.Save { s with CurrentVMCID := cid }
            (r.deploymentStateService.Load w.store).2).1).map
          (fun err => WrapError err "Saving new config"),
        { store := (r.deploymentStateService.Save { s with CurrentVMCID := cid }
            (r.deploymentStateService.Load w.store).2).2,
          trace := w.trace ++ [Call.Load, Call.Save { s with CurrentVMCID := cid }] }) := by
  unfold vMRepo.UpdateCurrent DeploymentStateService.doLoad DeploymentStateService.doSave
  simp only [hl]
  split <;> rename_i h <;> simp only [Prod.mk.injEq] at h <;> obtain ⟨h1, h2⟩ := h <;>
    simp [h1, ← h2]

theorem UpdateCurrentAgentId_of_load (r : vMRepo σ) (agentId : String) (w : World σ)
    (s : DeploymentState) (hl : (r.deploymentStateService.Load w.store).1 = Except.ok s) :
    r.UpdateCurrentAgentId agentId w =
      (((r.deploymentStateService.Save { s with CurrentAgentID := agentId }
            (r.deploymentStateService.Load w.store).2).1).map
          (fun err => WrapError err "Saving new config"),
        { store := (r.deploymentStateService.Save { s with CurrentAgentID := agentId }
            (r.deploymentStateService.Load w.store).2).2,
          trace := w.trace ++ [Call.Load, Call.Save { s with CurrentAgentID := agentId }] }) := by
  unfold vMRepo.UpdateCurrentAgentId DeploymentStateService.doLoad
    DeploymentStateService.doSave
  simp only [hl]
  split <;> rename_i h <;> simp only [Prod.mk.injEq] at h <;> obtain ⟨h1, h2⟩ := h <;>
    simp [h1, ← h2]

/-! ### Over a faithful store -/

theorem faithful_FindCurrent (r : vMRepo σ) (snapshot : σ → DeploymentState)
    (hf : Faithful r.deploymentStateService snapshot) (w : World σ) :
    (r.FindCurrent w).1 =
        (if (snapshot w.store).CurrentVMCID ≠ "" then ((snapshot w.store).CurrentVMCID, true, none)
          else ("", false, none)) ∧
      snapshot (r.FindCurrent w).2.store = snapshot w.store := by
  rw [FindCurrent_of_load r w _ (hf.load_ok w.store)]
  exact ⟨rfl, hf.load_keeps w.store⟩

theorem faithful_FindCurrentAgentId (r : vMRepo σ) (snapshot : σ → DeploymentState)
    (hf : Faithful r.deploymentStateService snapshot) (w : World σ) :
    (r.FindCurrentAgentId w).1 =
        (if (snapshot w.store).CurrentAgentID ≠ "" then
          ((snapshot w.store).CurrentAgentID, true, none) else ("", false, none)) ∧
      snapshot (r.FindCurrentAgentId w).2.store = snapshot w.store := by
  rw [FindCurrentAgentId_of_load r w _ (hf.load_ok w.store)]
  exact ⟨rfl, hf.load_keeps w.store⟩

theorem faithful_UpdateCurrent (r : vMRepo σ) (snapshot : σ → DeploymentState)
    (hf : Faithful r.deploymentStateService snapshot) (cid : String) (w : World σ) :
    (r.UpdateCurrent cid w).1 = none ∧
      snapshot (r.UpdateCurrent cid w).2.store = { snapshot w.store with CurrentVMCID := cid } ∧
      (r.UpdateCurrent cid w).2.trace =
        w.trace ++ [Call.Load, Call.Save { snapshot w.store with CurrentVMCID := cid }] := by
  rw [UpdateCurrent_of_load r cid w _ (hf.load_ok w.store)]
  refine ⟨?_, ?_, rfl⟩
  · simp [hf.save_ok]
  · exact hf.save_stores _ _

theorem faithful_UpdateCurrentAgentId (r : vMRepo σ) (snapshot : σ → DeploymentState)
    (hf : Faithful r.deploymentStateService snapshot) (agentId : String) (w : World σ) :
    (r.UpdateCurrentAgentId agentId w).1 = none ∧
      snapshot (r.UpdateCurrentAgentId agentId w).2.store =
        { snapshot w.store with CurrentAgentID := agentId } ∧
      (r.UpdateCurrentAgentId agentId w).2.trace =
        w.trace ++ [Call.Load, Call.Save { snapshot w.store with CurrentAgentID := agentId }] := by
  rw [UpdateCurrentAgentId_of_load r agentId w _ (hf.load_ok w.store)]
  refine ⟨?_, ?_, rfl⟩
  · simp [hf.save_ok]
  · exact hf.save_stores _ _

theorem memoryStore_faithful : Faithful memoryStore id where
  load_ok := fun _ => rfl
  load_keeps := fun _ => rfl
  save_ok := fun _ _ => rfl
  save_stores := fun _ _ => rfl

theorem FindCurrent_of_load_error (r : vMRepo σ) (w : World σ) (e : GoError)
    (hl : (r.deploymentStateService.Load w.store).1 = Except.error e) :
    r.FindCurrent w =
      (("", false, some (WrapError e "Loading existing config")),
        { store := (r.deploymentStateService.Load w.store).2, trace := w.trace ++ [Call.Load] }) := by
  unfold vMRepo.FindCurrent DeploymentStateService.doLoad
  simp only [hl]

theorem FindCurrentAgentId_of_load_error (r : vMRepo σ) (w : World σ) (e : GoError)
    (hl : (r.deploymentStateService.Load w.store).1 = Except.error e) :
    r.FindCurrentAgentId w =
      (("", false, some (WrapError e "Loading existing config")),
        { store := (r.deploymentStateService.Load w.store).2, trace := w.trace ++ [Call.Load] }) := by
  unfold vMRepo.FindCurrentAgentId DeploymentStateService.doLoad
  simp only [hl]

theorem UpdateCurrentAgentId_of_load_error (r : vMRepo σ) (agentId : String) (w : World σ)
    (e : GoError) (hl : (r.deploymentStateService.Load w.store).1 = Except.error e) :
    r.UpdateCurrentAgentId agentId w =
      (some (WrapError e "Loading existing config"),
        { store := (r.deploymentStateService.Load w.store).2, trace := w.trace ++ [Call.Load] }) := by
  unfold vMRepo.UpdateCurrentAgentId DeploymentStateService.doLoad
  simp only [hl]

theorem ClearCurrent_of_load_error (r : vMRepo σ) (w : World σ) (e : GoError)
    (hl : (r.deploymentStateService.Load w.store).1 = Except.error e) :
    r.ClearCurrent w =
      (some (WrapError e "Loading existing config"),
        { store := (r.deploymentStateService.Load w.store).2, trace := w.trace ++ [Call.Load] }) := by
  unfold vMRepo.ClearCurrent DeploymentStateService.doLoad
  simp only [hl]

theorem ClearCurrent_of_load (r : vMRepo σ) (w : World σ) (s : DeploymentState)
    (hl : (r.deploymentStateService.Load w.store).1 = Except.ok s) :
    r.ClearCurrent w =
      (((r.deploymentStateService.Save
            { CurrentVMCID := "", CurrentAgentID := "", otherFields := s.otherFields }
            (r.deploymentStateService.Load w.store).2).1).map
          (fun err => WrapError err "Saving new config"),
        { store := (r.deploymentStateService.Save
            { CurrentVMCID := "", CurrentAgentID := "", otherFields := s.otherFields }
            (r.deploymentStateService.Load w.store).2).2,
          trace := w.trace ++ [Call.Load, Call.Save
            { CurrentVMCID := "", CurrentAgentID := "", otherFields := s.otherFields }] }) := by
  unfold vMRepo.ClearCurrent DeploymentStateService.doLoad DeploymentStateService.doSave
  simp only [hl]
  split <;> rename_i h <;> simp only [Prod.mk.injEq] at h <;> obtain ⟨h1, h2⟩ := h <;>
    simp [h1, ← h2]

theorem faithful_ClearCurrent (r : vMRepo σ) (snapshot : σ → DeploymentState)
    (hf : Faithful r.deploymentStateService snapshot) (w : World σ) :
    (r.ClearCurrent w).1 = none ∧
      snapshot (r.ClearCurrent w).2.store =
        { CurrentVMCID := "", CurrentAgentID := "",
          otherFields := (snapshot w.store).otherFields } := by
  rw [ClearCurrent_of_load r w _ (hf.load_ok w.store)]
  refine ⟨?_, ?_⟩
  · simp [hf.save_ok]
  · exact hf.save_stores _ _

theorem FindCurrent_world (r : vMRepo σ) (w : World σ) :
    (r.FindCurrent w).2 =
      { store := (r.deploymentStateService.Load w.store).2, trace := w.trace ++ [Call.Load] } := by
  cases hl : (r.deploymentStateService.Load w.store).1 with
  | error e => rw [FindCurrent_of_load_error r w e hl]
  | ok s => rw [FindCurrent_of_load r w s hl]

theorem FindCurrentAgentId_world (r : vMRepo σ) (w : World σ) :
    (r.FindCurrentAgentId w).2 =
      { store := (r.deploymentStateService.Load w.store).2, trace := w.trace ++ [Call.Load] } := by
  cases hl : (r.deploymentStateService.Load w.store).1 with
  | error e => rw [FindCurrentAgentId_of_load_error r w e hl]
  | ok s => rw [FindCurrentAgentId_of_load r w s hl]

theorem UpdateCurrentAgentId_trace (r : vMRepo σ) (agentId : String) (w : World σ) :
    (r.UpdateCurrentAgentId agentId w).2.trace = w.trace ++ [Call.Load] ∨
      ∃ d, (r.UpdateCurrentAgentId agentId w).2.trace = w.trace ++ [Call.Load, Call.Save d] := by
  cases hl : (r.deploymentStateService.Load w.store).1 with
  | error e => rw [UpdateCurrentAgentId_of_load_error r agentId w e hl]; exact Or.inl rfl
  | ok s => rw [UpdateCurrentAgentId_of_load r agentId w s hl]; exact Or.inr ⟨_, rfl⟩

theorem ClearCurrent_trace (r : vMRepo σ) (w : World σ) :
    (r.ClearCurrent w).2.trace = w.trace ++ [Call.Load] ∨
      ∃ d, (r.ClearCurrent w).2.trace = w.trace ++ [Call.Load, Call.Save d] := by
  cases hl : (r.deploymentStateService.Load w.store).1 with
  | error e => rw [ClearCurrent_of_load_error r w e hl]; exact Or.inl rfl
  | ok s => rw [ClearCurrent_of_load r w s hl]; exact Or.inr ⟨_, rfl⟩

theorem manager_FindCurrent_world (m : manager σ) (w : World σ) :
    (m.FindCurrent w).2 = (m.vmRepo.FindCurrent w).2 := by
  unfold manager.FindCurrent
  rcases m.vmRepo.FindCurrent w with ⟨⟨cid, found, err⟩, w1⟩
  cases err with
  | some e => rfl
  | none => cases found <;> rfl

end RepoLemmas

/-! ## Symbolic execution of `Create`, one lemma per exit -/

section CreateLemmas

variable {σ : Type}

theorem Create_networkInterfaces_error (m : manager σ) (stemcell : CloudStemcell)
    (man : Manifest) (w : World σ) (e : GoError)
    (hni : man.NetworkInterfaces man.JobName = Except.error e) :
    m.Create stemcell man w =
      ((none, some (WrapError e "Getting network spec")),
        { store := w.store,
          trace := w.trace ++ [Call.NetworkInterfaces man.JobName,
            Call.Debug m.logTag "Creating VM with network interfaces: %#v"] }) := by
  simp [manager.Create, hni, World.record]

theorem Create_resourcePool_error (m : manager σ) (stemcell : CloudStemcell)
    (man : Manifest) (w : World σ) (ni : List (String × PropertyMap)) (e : GoError)
    (hni : man.NetworkInterfaces man.JobName = Except.ok ni)
    (hrp : man.ResourcePool man.JobName = Except.error e) :
    m.Create stemcell man w =
      ((none, some (WrapErrorf e ("Getting resource pool for job \x27" ++ man.JobName ++ "\x27"))),
        { store := w.store,
          trace := w.trace ++ [Call.NetworkInterfaces man.JobName,
            Call.Debug m.logTag "Creating VM with network interfaces: %#v",
            Call.ResourcePool man.JobName] }) := by
  simp [manager.Create, hni, hrp, World.record]

theorem Create_generate_error (m : manager σ) (stemcell : CloudStemcell)
    (man : Manifest) (w : World σ) (ni : List (String × PropertyMap)) (rp : ResourcePool)
    (e : GoError)
    (hni : man.NetworkInterfaces man.JobName = Except.ok ni)
    (hrp : man.ResourcePool man.JobName = Except.ok rp)
    (hgen : m.uuidGenerator.Generate = Except.error e) :
    m.Create stemcell man w =
      ((none, some (WrapError e "Generating agent ID")),
        { store := w.store,
          trace := w.trace ++ [Call.NetworkInterfaces man.JobName,
            Call.Debug m.logTag "Creating VM with network interfaces: %#v",
            Call.ResourcePool man.JobName, Call.Generate] }) := by
  simp [manager.Create, hni, hrp, hgen, World.record]

theorem Create_createVM_error (m : manager σ) (stemcell : CloudStemcell)
    (man : Manifest) (w : World σ) (ni : List (String × PropertyMap)) (rp : ResourcePool)
    (agentID : String) (e : GoError)
    (hni : man.NetworkInterfaces man.JobName = Except.ok ni)
    (hrp : man.ResourcePool man.JobName = Except.ok rp)
    (hgen : m.uuidGenerator.Generate = Except.ok agentID)
    (hcreate : m.cloud.CreateVM agentID stemcell.CID rp.CloudProperties ni rp.Env =
      Except.error e) :
    m.Create stemcell man w =
      ((none, some (WrapErrorf e ("Creating vm with stemcell cid \x27" ++ stemcell.CID ++ "\x27"))),
        { store := w.store,
          trace := w.trace ++ createVMCalls m.logTag stemcell man ni rp agentID }) := by
  simp [manager.Create, manager.createAndRecordVm, hni, hrp, hgen, hcreate, World.record,
    createVMCalls]

theorem Create_updateCurrent_error (m : manager σ) (stemcell : CloudStemcell)
    (man : Manifest) (w : World σ) (ni : List (String × PropertyMap)) (rp : ResourcePool)
    (agentID cid : String) (e : GoError) (w4 : World σ)
    (hni : man.NetworkInterfaces man.JobName = Except.ok ni)
    (hrp : man.ResourcePool man.JobName = Except.ok rp)
    (hgen : m.uuidGenerator.Generate = Except.ok agentID)
    (hcreate : m.cloud.CreateVM agentID stemcell.CID rp.CloudProperties ni rp.Env =
      Except.ok cid)
    (hupd : m.vmRepo.UpdateCurrent cid
      { store := w.store, trace := w.trace ++ createVMCalls m.logTag stemcell man ni rp agentID } =
        (some e, w4)) :
    m.Create stemcell man w =
      ((none, some (WrapError e "Updating current vm record")), w4) := by
  simp only [createVMCalls] at hupd
  simp [manager.Create, manager.createAndRecordVm, hni, hrp, hgen, hcreate, World.record, hupd]

theorem Create_setVMMetadata_error (m : manager σ) (stemcell : CloudStemcell)
    (man : Manifest) (w : World σ) (ni : List (String × PropertyMap)) (rp : ResourcePool)
    (agentID cid : String) (e : GoError) (w4 : World σ)
    (hni : man.NetworkInterfaces man.JobName = Except.ok ni)
    (hrp : man.ResourcePool man.JobName = Except.ok rp)
    (hgen : m.uuidGenerator.Generate = Except.ok agentID)
    (hcreate : m.cloud.CreateVM agentID stemcell.CID rp.CloudProperties ni rp.Env =
      Except.ok cid)
    (hupd : m.vmRepo.UpdateCurrent cid
      { store := w.store, trace := w.trace ++ createVMCalls m.logTag stemcell man ni rp agentID } =
        (none, w4))
    (hmeta : m.cloud.SetVMMetadata cid (createMetadata man) = some e)
    (hkind : e.isCloudErrorOfType NotImplementedError = false) :
    m.Create stemcell man w =
      ((none, some (WrapErrorf e ("Setting VM metadata to " ++ (createMetadata man).format))),
        { store := w4.store,
          trace := w4.trace ++ [Call.SetVMMetadata cid (createMetadata man)] }) := by
  simp only [createVMCalls, createMetadata] at hupd hmeta ⊢
  simp [manager.Create, manager.createAndRecordVm, hni, hrp, hgen, hcreate, World.record, hupd,
    hmeta, hkind]

theorem Create_findVM_error (m : manager σ) (stemcell : CloudStemcell)
    (man : Manifest) (w : World σ) (ni : List (String × PropertyMap)) (rp : ResourcePool)
    (agentID cid : String) (e : GoError) (w4 : World σ)
    (hni : man.NetworkInterfaces man.JobName = Except.ok ni)
    (hrp : man.ResourcePool man.JobName = Except.ok rp)
    (hgen : m.uuidGenerator.Generate = Except.ok agentID)
    (hcreate : m.cloud.CreateVM agentID stemcell.CID rp.CloudProperties ni rp.Env =
      Except.ok cid)
    (hupd : m.vmRepo.UpdateCurrent cid
      { store := w.store, trace := w.trace ++ createVMCalls m.logTag stemcell man ni rp agentID } =
        (none, w4))
    (hmeta : ∀ e, m.cloud.SetVMMetadata cid (createMetadata man) = some e →
      e.isCloudErrorOfType NotImplementedError = true)
    (hfind : m.cloud.FindVM cid = Except.error e) :
    m.Create stemcell man w =
      ((none, some (WrapErrorf e ("Fetching details of vm: " ++ cid))),
        { store := w4.store,
          trace := w4.trace ++ [Call.SetVMMetadata cid (createMetadata man),
            Call.Debug m.logTag "WJQ: pre find_vm", Call.FindVM cid] }) := by
  simp only [createVMCalls, createMetadata] at hupd hmeta ⊢
  cases hm : m.cloud.SetVMMetadata cid
      { Deployment := man.Name, Job := man.JobName, Index := "0", Director := "bosh-init" } with
  | none =>
    simp [manager.Create, manager.createAndRecordVm, hni, hrp, hgen, hcreate, World.record,
      hupd, hm, hfind]
  | some e0 =>
    simp [manager.Create, manager.createAndRecordVm, hni, hrp, hgen, hcreate, World.record,
      hupd, hm, hmeta e0 hm, hfind]

theorem Create_execute_error (m : manager σ) (stemcell : CloudStemcell)
    (man : Manifest) (w : World σ) (ni : List (String × PropertyMap)) (rp : ResourcePool)
    (agentID cid hostname privateIP : String) (e : GoError) (w4 : World σ)
    (hni : man.NetworkInterfaces man.JobName = Except.ok ni)
    (hrp : man.ResourcePool man.JobName = Except.ok rp)
    (hgen : m.uuidGenerator.Generate = Except.ok agentID)
    (hcreate : m.cloud.CreateVM agentID stemcell.CID rp.CloudProperties ni rp.Env =
      Except.ok cid)
    (hupd : m.vmRepo.UpdateCurrent cid
      { store := w.store, trace := w.trace ++ createVMCalls m.logTag stemcell man ni rp agentID } =
        (none, w4))
    (hmeta : ∀ e, m.cloud.SetVMMetadata cid (createMetadata man) = some e →
      e.isCloudErrorOfType NotImplementedError = true)
    (hfind : m.cloud.FindVM cid = Except.ok (hostname, privateIP))
    (hexec : m.template.Execute etcHostsTemplate
      { fullyQualifiedDomainName := hostname, primaryBackendIpAddress := privateIP } =
        Except.error e) :
    m.Create stemcell man w =
      ((none, some (WrapErrorf (WrapError e "Generating config from template")
          "Writing to /etc/hosts")),
        { store := w4.store,
          trace := w4.trace ++ [Call.SetVMMetadata cid (createMetadata man),
            Call.Debug m.logTag "WJQ: pre find_vm", Call.FindVM cid] }) := by
  simp only [createVMCalls, createMetadata] at hupd hmeta ⊢
  cases hm : m.cloud.SetVMMetadata cid
      { Deployment := man.Name, Job := man.JobName, Index := "0", Director := "bosh-init" } with
  | none =>
    simp [manager.Create, manager.createAndRecordVm, manager.setupBoshInitEtcHosts, hni, hrp,
      hgen, hcreate, World.record, hupd, hm, hfind, hexec]
  | some e0 =>
    simp [manager.Create, manager.createAndRecordVm, manager.setupBoshInitEtcHosts, hni, hrp,
      hgen, hcreate, World.record, hupd, hm, hmeta e0 hm, hfind, hexec]

theorem Create_writeFile_error (m : manager σ) (stemcell : CloudStemcell)
    (man : Manifest) (w : World σ) (ni : List (String × PropertyMap)) (rp : ResourcePool)
    (agentID cid hostname privateIP buffer : String) (e : GoError) (w4 : World σ)
    (hni : man.NetworkInterfaces man.JobName = Except.ok ni)
    (hrp : man.ResourcePool man.JobName = Except.ok rp)
    (hgen : m.uuidGenerator.Generate = Except.ok agentID)
    (hcreate : m.cloud.CreateVM agentID stemcell.CID rp.CloudProperties ni rp.Env =
      Except.ok cid)
    (hupd : m.vmRepo.UpdateCurrent cid
      { store := w.store, trace := w.trace ++ createVMCalls m.logTag stemcell man ni rp agentID } =
        (none, w4))
    (hmeta : ∀ e, m.cloud.SetVMMetadata cid (createMetadata man) = some e →
      e.isCloudErrorOfType NotImplementedError = true)
    (hfind : m.cloud.FindVM cid = Except.ok (hostname, privateIP))
    (hexec : m.template.Execute etcHostsTemplate
      { fullyQualifiedDomainName := hostname, primaryBackendIpAddress := privateIP } =
        Except.ok buffer)
    (hwrite : m.fs.WriteFile "/etc/hosts" buffer = some e) :
    m.Create stemcell man w =
      ((none, some (WrapErrorf (WrapError e "Writing to /etc/hosts") "Writing to /etc/hosts")),
        { store := w4.store,
          trace := w4.trace ++ [Call.SetVMMetadata cid (createMetadata man),
            Call.Debug m.logTag "WJQ: pre find_vm", Call.FindVM cid,
            Call.WriteFile "/etc/hosts" buffer] }) := by
  simp only [createVMCalls, createMetadata] at hupd hmeta ⊢
  cases hm : m.cloud.SetVMMetadata cid
      { Deployment := man.Name, Job := man.JobName, Index := "0", Director := "bosh-init" } with
  | none =>
    simp [manager.Create, manager.createAndRecordVm, manager.setupBoshInitEtcHosts, hni, hrp,
      hgen, hcreate, World.record, hupd, hm, hfind, hexec, hwrite]
  | some e0 =>
    simp [manager.Create, manager.createAndRecordVm, manager.setupBoshInitEtcHosts, hni, hrp,
      hgen, hcreate, World.record, hupd, hm, hmeta e0 hm, hfind, hexec, hwrite]

theorem Create_success (m : manager σ) (stemcell : CloudStemcell)
    (man : Manifest) (w : World σ) (ni : List (String × PropertyMap)) (rp : ResourcePool)
    (agentID cid hostname privateIP buffer : String) (w4 : World σ)
    (hni : man.NetworkInterfaces man.JobName = Except.ok ni)
    (hrp : man.ResourcePool man.JobName = Except.ok rp)
    (hgen : m.uuidGenerator.Generate = Except.ok agentID)
    (hcreate : m.cloud.CreateVM agentID stemcell.CID rp.CloudProperties ni rp.Env =
      Except.ok cid)
    (hupd : m.vmRepo.UpdateCurrent cid
      { store := w.store, trace := w.trace ++ createVMCalls m.logTag stemcell man ni rp agentID } =
        (none, w4))
    (hmeta : ∀ e, m.cloud.SetVMMetadata cid (createMetadata man) = some e →
      e.isCloudErrorOfType NotImplementedError = true)
    (hfind : m.cloud.FindVM cid = Except.ok (hostname, privateIP))
    (hexec : m.template.Execute etcHostsTemplate
      { fullyQualifiedDomainName := hostname, primaryBackendIpAddress := privateIP } =
        Except.ok buffer)
    (hwrite : m.fs.WriteFile "/etc/hosts" buffer = none) :
    m.Create stemcell man w =
      ((some (NewVM cid), none),
        { store := w4.store,
          trace := w4.trace ++ [Call.SetVMMetadata cid (createMetadata man),
            Call.Debug m.logTag "WJQ: pre find_vm", Call.FindVM cid,
            Call.WriteFile "/etc/hosts" buffer, Call.Debug m.logTag "WJQ Post find_vm"] }) := by
  simp only [createVMCalls, createMetadata] at hupd hmeta ⊢
  cases hm : m.cloud.SetVMMetadata cid
      { Deployment := man.Name, Job := man.JobName, Index := "0", Director := "bosh-init" } with
  | none =>
    simp [manager.Create, manager.createAndRecordVm, manager.setupBoshInitEtcHosts, hni, hrp,
      hgen, hcreate, World.record, hupd, hm, hfind, hexec, hwrite]
  | some e0 =>
    simp [manager.Create, manager.createAndRecordVm, manager.setupBoshInitEtcHosts, hni, hrp,
      hgen, hcreate, World.record, hupd, hm, hmeta e0 hm, hfind, hexec, hwrite]

/-- Once the cid is recorded, whatever the later steps do, `Create` leaves the store as
`UpdateCurrent` left it and only appends cloud, file-system and logger calls. -/
theorem Create_after_record (m : manager σ) (stemcell : CloudStemcell)
    (man : Manifest) (w : World σ) (ni : List (String × PropertyMap)) (rp : ResourcePool)
    (agentID cid : String) (w4 : World σ)
    (hni : man.NetworkInterfaces man.JobName = Except.ok ni)
    (hrp : man.ResourcePool man.JobName = Except.ok rp)
    (hgen : m.uuidGenerator.Generate = Except.ok agentID)
    (hcreate : m.cloud.CreateVM agentID stemcell.CID rp.CloudProperties ni rp.Env =
      Except.ok cid)
    (hupd : m.vmRepo.UpdateCurrent cid
      { store := w.store, trace := w.trace ++ createVMCalls m.logTag stemcell man ni rp agentID } =
        (none, w4)) :
    ∃ post, (m.Create stemcell man w).2 = { store := w4.store, trace := w4.trace ++ post } ∧
      ∀ c ∈ post, c.isStoreCall = false := by
  by_cases hmeta : ∀ e, m.cloud.SetVMMetadata cid (createMetadata man) = some e →
      e.isCloudErrorOfType NotImplementedError = true
  · cases hfind : m.cloud.FindVM cid with
    | error e =>
      rw [Create_findVM_error m stemcell man w ni rp agentID cid e w4 hni hrp hgen hcreate hupd
        hmeta hfind]
      exact ⟨_, rfl, by simp [Call.isStoreCall]⟩
    | ok p =>
      obtain ⟨hostname, privateIP⟩ := p
      cases hexec : m.template.Execute etcHostsTemplate
          { fullyQualifiedDomainName := hostname, primaryBackendIpAddress := privateIP } with
      | error e =>
        rw [Create_execute_error m stemcell man w ni rp agentID cid hostname privateIP e w4 hni
          hrp hgen hcreate hupd hmeta hfind hexec]
        exact ⟨_, rfl, by simp [Call.isStoreCall]⟩
      | ok buffer =>
        cases hwrite : m.fs.WriteFile "/etc/hosts" buffer with
        | some e =>
          rw [Create_writeFile_error m stemcell man w ni rp agentID cid hostname privateIP
            buffer e w4 hni hrp hgen hcreate hupd hmeta hfind hexec hwrite]
          exact ⟨_, rfl, by simp [Call.isStoreCall]⟩
        | none =>
          rw [Create_success m stemcell man w ni rp agentID cid hostname privateIP
            buffer w4 hni hrp hgen hcreate hupd hmeta hfind hexec hwrite]
          exact ⟨_, rfl, by simp [Call.isStoreCall]⟩
  · push_neg at hmeta
    obtain ⟨e, he, hk⟩ := hmeta
    rw [Create_setVMMetadata_error m stemcell man w ni rp agentID cid e w4 hni hrp hgen hcreate
      hupd he (by simpa using hk)]
    exact ⟨_, rfl, by simp [Call.isStoreCall]⟩

theorem UpdateCurrent_of_load_error (r : vMRepo σ) (cid : String) (w : World σ) (e : GoError)
    (hl : (r.deploymentStateService.Load w.store).1 = Except.error e) :
    r.UpdateCurrent cid w =
      (some (WrapError e "Loading existing config"),
        { store := (r.deploymentStateService.Load w.store).2, trace := w.trace ++ [Call.Load] }) := by
  unfold vMRepo.UpdateCurrent DeploymentStateService.doLoad
  simp only [hl]

theorem UpdateCurrent_trace (r : vMRepo σ) (cid : String) (w : World σ) :
    (r.UpdateCurrent cid w).2.trace = w.trace ++ [Call.Load] ∨
      ∃ d, (r.UpdateCurrent cid w).2.trace = w.trace ++ [Call.Load, Call.Save d] := by
  cases hl : (r.deploymentStateService.Load w.store).1 with
  | error e => rw [UpdateCurrent_of_load_error r cid w e hl]; exact Or.inl rfl
  | ok s => rw [UpdateCurrent_of_load r cid w s hl]; exact Or.inr ⟨_, rfl⟩

theorem isCloudErrorOfType_eq_true_iff (e : GoError) (errType : String) :
    e.isCloudErrorOfType errType = true ↔ ∃ message, e = GoError.cloud errType message := by
  cases e <;> simp [GoError.isCloudErrorOfType]

theorem isCloudErrorOfType_eq_false_iff (e : GoError) (errType : String) :
    e.isCloudErrorOfType errType = false ↔ ∀ message, e ≠ GoError.cloud errType message := by
  rw [← Bool.not_eq_true, isCloudErrorOfType_eq_true_iff]
  simp

theorem UpdateCurrent_of_load_save (r : vMRepo σ) (cid : String) (w : World σ)
    (s : DeploymentState) (hl : (r.deploymentStateService.Load w.store).1 = Except.ok s)
    (hs : (r.deploymentStateService.Save { s with CurrentVMCID := cid }
      (r.deploymentStateService.Load w.store).2).1 = none) :
    r.UpdateCurrent cid w =
      (none,
        { store := (r.deploymentStateService.Save { s with CurrentVMCID := cid }
            (r.deploymentStateService.Load w.store).2).2,
          trace := w.trace ++ [Call.Load, Call.Save { s with CurrentVMCID := cid }] }) := by
  rw [UpdateCurrent_of_load r cid w s hl, hs]
  rfl

theorem filterMap_saved_of_no_store_call (post : List Call)
    (h : ∀ c ∈ post, c.isStoreCall = false) : post.filterMap Call.saved = [] := by
  rw [List.filterMap_eq_nil_iff]
  intro c hc
  have := h c hc
  cases c <;> simp_all [Call.isStoreCall, Call.saved]

theorem metadata_tolerated_of_stepsSucceed (m : manager σ) (cid : String) (man : Manifest)
    (h : m.cloud.SetVMMetadata cid (createMetadata man) = none ∨
      ∃ message, m.cloud.SetVMMetadata cid (createMetadata man) =
        some (GoError.cloud NotImplementedError message)) :
    ∀ e, m.cloud.SetVMMetadata cid (createMetadata man) = some e →
      e.isCloudErrorOfType NotImplementedError = true := by
  intro e he
  rcases h with h | ⟨message, h⟩
  · rw [h] at he; cases he
  · rw [h] at he
    cases he
    exact (isCloudErrorOfType_eq_true_iff _ _).2 ⟨message, rfl⟩

theorem Create_of_stepsSucceed (m : manager σ) (stemcell : CloudStemcell) (man : Manifest)
    (w : World σ) (ni : List (String × PropertyMap)) (rp : ResourcePool)
    (agentID cid hostname privateIP buffer : String)
    (h : m.stepsSucceed stemcell man w ni rp agentID cid hostname privateIP buffer) :
    (m.Create stemcell man w).1 = (some (NewVM cid), none) := by
  obtain ⟨hni, hrp, hgen, hcreate, hupd, hmeta, hfind, hexec, hwrite⟩ := h
  rw [Create_success m stemcell man w ni rp agentID cid hostname privateIP buffer _ hni hrp hgen
    hcreate (Prod.ext hupd rfl) (metadata_tolerated_of_stepsSucceed m cid man hmeta) hfind hexec
    hwrite]

/-- Every run of `Create` either ends with a nil handle and a non-nil error, or all its steps
succeeded and it returns the handle for the created cid with a nil error. -/
theorem Create_outcome (m : manager σ) (stemcell : CloudStemcell) (man : Manifest)
    (w : World σ) :
    ((m.Create stemcell man w).1.1 = none ∧ (m.Create stemcell man w).1.2 ≠ none) ∨
      ∃ ni rp agentID cid hostname privateIP buffer,
        m.stepsSucceed stemcell man w ni rp agentID cid hostname privateIP buffer ∧
        (m.Create stemcell man w).1 = (some (NewVM cid), none) := by
  cases hni : man.NetworkInterfaces man.JobName with
  | error e =>
    rw [Create_networkInterfaces_error m stemcell man w e hni]
    exact Or.inl ⟨rfl, by simp⟩
  | ok ni =>
  cases hrp : man.ResourcePool man.JobName with
  | error e =>
    rw [Create_resourcePool_error m stemcell man w ni e hni hrp]
    exact Or.inl ⟨rfl, by simp⟩
  | ok rp =>
  cases hgen : m.uuidGenerator.Generate with
  | error e =>
    rw [Create_generate_error m stemcell man w ni rp e hni hrp hgen]
    exact Or.inl ⟨rfl, by simp⟩
  | ok agentID =>
  cases hcreate : m.cloud.CreateVM agentID stemcell.CID rp.CloudProperties ni rp.Env with
  | error e =>
    rw [Create_createVM_error m stemcell man w ni rp agentID e hni hrp hgen hcreate]
    exact Or.inl ⟨rfl, by simp⟩
  | ok cid =>
  cases hupd : (m.vmRepo.UpdateCurrent cid
    { store := w.store,
      trace := w.trace ++ createVMCalls m.logTag stemcell man ni rp agentID }).1 with
  | some e =>
    rw [Create_updateCurrent_error m stemcell man w ni rp agentID cid e _ hni hrp hgen hcreate
      (Prod.ext hupd rfl)]
    exact Or.inl ⟨rfl, by simp⟩
  | none =>
  by_cases hmeta : ∀ e, m.cloud.SetVMMetadata cid (createMetadata man) = some e →
      e.isCloudErrorOfType NotImplementedError = true
  · cases hfind : m.cloud.FindVM cid with
    | error e =>
      rw [Create_findVM_error m stemcell man w ni rp agentID cid e _ hni hrp hgen hcreate
        (Prod.ext hupd rfl) hmeta hfind]
      exact Or.inl ⟨rfl, by simp⟩
    | ok p =>
    obtain ⟨hostname, privateIP⟩ := p
    cases hexec : m.template.Execute etcHostsTemplate
        { fullyQualifiedDomainName := hostname, primaryBackendIpAddress := privateIP } with
    | error e =>
      rw [Create_execute_error m stemcell man w ni rp agentID cid hostname privateIP e _ hni
        hrp hgen hcreate (Prod.ext hupd rfl) hmeta hfind hexec]
      exact Or.inl ⟨rfl, by simp⟩
    | ok buffer =>
    cases hwrite : m.fs.WriteFile "/etc/hosts" buffer with
    | some e =>
      rw [Create_writeFile_error m stemcell man w ni rp agentID cid hostname privateIP buffer
        e _ hni hrp hgen hcreate (Prod.ext hupd rfl) hmeta hfind hexec hwrite]
      exact Or.inl ⟨rfl, by simp⟩
    | none =>
      have hs : m.stepsSucceed stemcell man w ni rp agentID cid hostname privateIP buffer := by
        refine ⟨hni, hrp, hgen, hcreate, hupd, ?_, hfind, hexec, hwrite⟩
        cases hm : m.cloud.SetVMMetadata cid (createMetadata man) with
        | none => exact Or.inl rfl
        | some e =>
          obtain ⟨message, rfl⟩ := (isCloudErrorOfType_eq_true_iff _ _).1 (hmeta e hm)
          exact Or.inr ⟨message, rfl⟩
      exact Or.inr ⟨ni, rp, agentID, cid, hostname, privateIP, buffer, hs,
        Create_of_stepsSucceed m stemcell man w ni rp agentID cid hostname privateIP buffer hs⟩
  · push_neg at hmeta
    obtain ⟨e, he, hk⟩ := hmeta
    rw [Create_setVMMetadata_error m stemcell man w ni rp agentID cid e _ hni hrp hgen hcreate
      (Prod.ext hupd rfl) he (by simpa using hk)]
    exact Or.inl ⟨rfl, by simp⟩

theorem Parse_etcHostsTemplate :
    Parse etcHostsTemplate = some [TemplateNode.text "127.0.0.1 localhost\n",
      TemplateNode.field "primaryBackendIpAddress", TemplateNode.text " ",
      TemplateNode.field "fullyQualifiedDomainName", TemplateNode.text "\n"] := by
  decide

theorem goTemplate_Execute_etcHostsTemplate (vm : softlayerVM) :
    goTemplate.Execute etcHostsTemplate vm =
      Except.error (GoError.plain
        "primaryBackendIpAddress is an unexported field of struct type vm.softlayerVM") := by
  simp only [goTemplate, Parse_etcHostsTemplate, execNodes, evalField]
  have h1 : vm.fieldByName "primaryBackendIpAddress" = some vm.primaryBackendIpAddress := by
    simp [softlayerVM.fieldByName]
  have h2 : isExported "primaryBackendIpAddress" = false := by decide
  simp [h1, h2]

end CreateLemmas

/-! ## The manager: claims -/

section CreateClaims
variable {σ : Type}

/-- C1. Over a faithful state store, for every run of `Create` in which steps 1 to 3 succeed
and `CreateVM` returns a non-empty `cid`, and a later step then fails (`SetVMMetadata` with an
error that is not a cloud error of kind NotImplemented, `FindVM`, or the hosts-file step, be
it the rendering or the write), `Create` returns a nil handle and a non-nil error, and a
following `FindCurrent()` on the record store returns `(cid, true, nil)`. -/
theorem Create_later_failure_keeps_record (m : manager σ) (snapshot : σ → DeploymentState)
    (hf : Faithful m.vmRepo.deploymentStateService snapshot)
    (stemcell : CloudStemcell) (man : Manifest) (w : World σ)
    (ni : List (String × PropertyMap)) (rp : ResourcePool) (agentID cid : String)
    (hni : man.NetworkInterfaces man.JobName = Except.ok ni)
    (hrp : man.ResourcePool man.JobName = Except.ok rp)
    (hgen : m.uuidGenerator.Generate = Except.ok agentID)
    (hcreate : m.cloud.CreateVM agentID stemcell.CID rp.CloudProperties ni rp.Env =
      Except.ok cid)
    (hcid : cid ≠ "")
    (hfail :
      (∃ e, m.cloud.SetVMMetadata cid (createMetadata man) = some e ∧
        ∀ message, e ≠ GoError.cloud NotImplementedError message) ∨
      (∃ e, m.cloud.FindVM cid = Except.error e) ∨
      (∃ hostname privateIP, m.cloud.FindVM cid = Except.ok (hostname, privateIP) ∧
        ((∃ e, m.template.Execute etcHostsTemplate
            { fullyQualifiedDomainName := hostname, primaryBackendIpAddress := privateIP } =
              Except.error e) ∨
          (∃ buffer e, m.template.Execute etcHostsTemplate
            { fullyQualifiedDomainName := hostname, primaryBackendIpAddress := privateIP } =
              Except.ok buffer ∧ m.fs.WriteFile "/etc/hosts" buffer = some e)))) :
    (m.Create stemcell man w).1.1 = none ∧ (m.Create stemcell man w).1.2 ≠ none ∧
      (m.vmRepo.FindCurrent (m.Create stemcell man w).2).1 = (cid, true, none) := by
  obtain ⟨h1, h2, _⟩ := faithful_UpdateCurrent m.vmRepo snapshot hf cid
    { store := w.store, trace := w.trace ++ createVMCalls m.logTag stemcell man ni rp agentID }
  have hupd : m.vmRepo.UpdateCurrent cid
      { store := w.store, trace := w.trace ++ createVMCalls m.logTag stemcell man ni rp agentID } =
      (none, (m.vmRepo.UpdateCurrent cid
        { store := w.store,
          trace := w.trace ++ createVMCalls m.logTag stemcell man ni rp agentID }).2) :=
    Prod.ext h1 rfl
  have hfind : (m.vmRepo.FindCurrent (m.Create stemcell man w).2).1 = (cid, true, none) := by
    obtain ⟨post, hw, _⟩ := Create_after_record m stemcell man w ni rp agentID cid _ hni hrp hgen
      hcreate hupd
    rw [(faithful_FindCurrent m.vmRepo snapshot hf _).1, hw]
    simp only [h2]
    simp [hcid]
  suffices hres : (m.Create stemcell man w).1.1 = none ∧ (m.Create stemcell man w).1.2 ≠ none
    from ⟨hres.1, hres.2, hfind⟩
  · by_cases hmeta : ∀ e, m.cloud.SetVMMetadata cid (createMetadata man) = some e →
        e.isCloudErrorOfType NotImplementedError = true
    · rcases hfail with ⟨e, he, hk⟩ | ⟨e, he⟩ | ⟨hostname, privateIP, hv, ⟨e, he⟩ | ⟨buffer, e, hb, he⟩⟩
      · have := hmeta e he
        rw [isCloudErrorOfType_eq_true_iff] at this
        obtain ⟨msg, rfl⟩ := this
        exact absurd rfl (hk msg)
      · rw [Create_findVM_error m stemcell man w ni rp agentID cid e _ hni hrp hgen hcreate hupd
          hmeta he]
        exact ⟨rfl, by simp⟩
      · rw [Create_execute_error m stemcell man w ni rp agentID cid hostname privateIP e _ hni
          hrp hgen hcreate hupd hmeta hv he]
        exact ⟨rfl, by simp⟩
      · rw [Create_writeFile_error m stemcell man w ni rp agentID cid hostname privateIP buffer
          e _ hni hrp hgen hcreate hupd hmeta hv hb he]
        exact ⟨rfl, by simp⟩
    · push_neg at hmeta
      obtain ⟨e, he, hk⟩ := hmeta
      rw [Create_setVMMetadata_error m stemcell man w ni rp agentID cid e _ hni hrp hgen hcreate
        hupd he (by simpa using hk)]
      exact ⟨rfl, by simp⟩

/-- Witness for C1: `CreateVM` gives `c1`, then `FindVM` fails. -/
theorem Create_later_failure_keeps_record_witness :
    (findVMFailingManager.Create exampleStemcell exampleManifest emptyWorld).1.1 = none ∧
      (findVMFailingManager.Create exampleStemcell exampleManifest emptyWorld).1.2 ≠ none ∧
      (findVMFailingManager.vmRepo.FindCurrent
        (findVMFailingManager.Create exampleStemcell exampleManifest emptyWorld).2).1 =
          ("c1", true, none) :=
  Create_later_failure_keeps_record findVMFailingManager id memoryStore_faithful exampleStemcell
    exampleManifest emptyWorld [] { CloudProperties := [], Env := [] } "a1" "c1" rfl rfl rfl rfl
    (by decide) (Or.inr (Or.inl ⟨GoError.plain "vm not found", rfl⟩))

/-- C3. For every run of `Create` in which one of steps 1 to 3 fails (`NetworkInterfaces`,
`ResourcePool`, `Generate`, or the `CreateVM` call that `Create` makes), `Create` returns a
nil handle and a non-nil error, the calls it made contain no `Load` and no `Save` (so no
`UpdateCurrent`), and the state of the store after the call is the state before it. -/
theorem Create_early_failure_leaves_store (m : manager σ) (stemcell : CloudStemcell)
    (man : Manifest) (w : World σ)
    (hfail :
      (∃ e, man.NetworkInterfaces man.JobName = Except.error e) ∨
      (∃ e, man.ResourcePool man.JobName = Except.error e) ∨
      (∃ e, m.uuidGenerator.Generate = Except.error e) ∨
      (∃ ni rp agentID e, man.NetworkInterfaces man.JobName = Except.ok ni ∧
        man.ResourcePool man.JobName = Except.ok rp ∧
        m.uuidGenerator.Generate = Except.ok agentID ∧
        m.cloud.CreateVM agentID stemcell.CID rp.CloudProperties ni rp.Env = Except.error e)) :
    (m.Create stemcell man w).1.1 = none ∧ (m.Create stemcell man w).1.2 ≠ none ∧
      (m.Create stemcell man w).2.store = w.store ∧
      ∃ made, (m.Create stemcell man w).2.trace = w.trace ++ made ∧
        ∀ c ∈ made, c.isStoreCall = false := by
  cases hni : man.NetworkInterfaces man.JobName with
  | error e =>
    rw [Create_networkInterfaces_error m stemcell man w e hni]
    exact ⟨rfl, by simp, rfl, _, rfl, by simp [Call.isStoreCall]⟩
  | ok ni =>
    cases hrp : man.ResourcePool man.JobName with
    | error e =>
      rw [Create_resourcePool_error m stemcell man w ni e hni hrp]
      exact ⟨rfl, by simp, rfl, _, rfl, by simp [Call.isStoreCall]⟩
    | ok rp =>
      cases hgen : m.uuidGenerator.Generate with
      | error e =>
        rw [Create_generate_error m stemcell man w ni rp e hni hrp hgen]
        exact ⟨rfl, by simp, rfl, _, rfl, by simp [Call.isStoreCall]⟩
      | ok agentID =>
        rcases hfail with ⟨e, he⟩ | ⟨e, he⟩ | ⟨e, he⟩ | ⟨ni0, rp0, a0, e, h1, h2, h3, h4⟩
        · rw [hni] at he; cases he
        · rw [hrp] at he; cases he
        · rw [hgen] at he; cases he
        · rw [hni] at h1; rw [hrp] at h2; rw [hgen] at h3
          cases h1; cases h2; cases h3
          rw [Create_createVM_error m stemcell man w ni rp agentID e hni hrp hgen h4]
          exact ⟨rfl, by simp, rfl, _, rfl, by simp [Call.isStoreCall, createVMCalls]⟩

/-- Witness for C3: the cloud fails to create the VM. -/
theorem Create_early_failure_leaves_store_witness :
    (createVMFailingManager.Create exampleStemcell exampleManifest emptyWorld).1.2 ≠ none ∧
      (createVMFailingManager.Create exampleStemcell exampleManifest emptyWorld).2.store =
        emptyWorld.store :=
  ⟨(Create_early_failure_leaves_store createVMFailingManager exampleStemcell exampleManifest
      emptyWorld (Or.inr (Or.inr (Or.inr ⟨[], { CloudProperties := [], Env := [] }, "a1",
        GoError.plain "quota exceeded", rfl, rfl, rfl, rfl⟩)))).2.1,
    (Create_early_failure_leaves_store createVMFailingManager exampleStemcell exampleManifest
      emptyWorld (Or.inr (Or.inr (Or.inr ⟨[], { CloudProperties := [], Env := [] }, "a1",
        GoError.plain "quota exceeded", rfl, rfl, rfl, rfl⟩)))).2.2.1⟩

/-- C2, as amended. Over a faithful state store, for every run of `Create` in which steps 1 to
3 succeed with `Generate` giving `agentID` and `CreateVM` giving `cid`, the calls `Create`
makes contain exactly one `Save`, whose snapshot is the loaded one with `CurrentVMCID = cid`
and `CurrentAgentID` and all other fields unchanged; the generated `agentID` is not written, so
the stored snapshot afterwards is that one and `FindCurrentAgentId()` returns what it returned
before `Create`. -/
theorem Create_records_cid_only (m : manager σ) (snapshot : σ → DeploymentState)
    (hf : Faithful m.vmRepo.deploymentStateService snapshot)
    (stemcell : CloudStemcell) (man : Manifest) (w : World σ)
    (ni : List (String × PropertyMap)) (rp : ResourcePool) (agentID cid : String)
    (hni : man.NetworkInterfaces man.JobName = Except.ok ni)
    (hrp : man.ResourcePool man.JobName = Except.ok rp)
    (hgen : m.uuidGenerator.Generate = Except.ok agentID)
    (hcreate : m.cloud.CreateVM agentID stemcell.CID rp.CloudProperties ni rp.Env =
      Except.ok cid) :
    (∃ made, (m.Create stemcell man w).2.trace = w.trace ++ made ∧
      made.filterMap Call.saved =
        [{ CurrentVMCID := cid, CurrentAgentID := (snapshot w.store).CurrentAgentID,
           otherFields := (snapshot w.store).otherFields }]) ∧
      snapshot (m.Create stemcell man w).2.store =
        { CurrentVMCID := cid, CurrentAgentID := (snapshot w.store).CurrentAgentID,
          otherFields := (snapshot w.store).otherFields } ∧
      (m.vmRepo.FindCurrentAgentId (m.Create stemcell man w).2).1 =
        (m.vmRepo.FindCurrentAgentId w).1 := by
  obtain ⟨h1, h2, h3⟩ := faithful_UpdateCurrent m.vmRepo snapshot hf cid
    { store := w.store, trace := w.trace ++ createVMCalls m.logTag stemcell man ni rp agentID }
  have hupd : m.vmRepo.UpdateCurrent cid
      { store := w.store, trace := w.trace ++ createVMCalls m.logTag stemcell man ni rp agentID } =
      (none, (m.vmRepo.UpdateCurrent cid
        { store := w.store,
          trace := w.trace ++ createVMCalls m.logTag stemcell man ni rp agentID }).2) :=
    Prod.ext h1 rfl
  obtain ⟨post, hw, hpost⟩ := Create_after_record m stemcell man w ni rp agentID cid _ hni hrp
    hgen hcreate hupd
  refine ⟨⟨createVMCalls m.logTag stemcell man ni rp agentID ++
      [Call.Load, Call.Save { snapshot w.store with CurrentVMCID := cid }] ++ post, ?_, ?_⟩,
    ?_, ?_⟩
  · rw [hw]
    simp only [h3, List.append_assoc]
  · rw [List.filterMap_append, filterMap_saved_of_no_store_call post hpost]
    simp [createVMCalls, Call.saved, List.filterMap_cons]
  · rw [hw]
    exact h2
  · rw [(faithful_FindCurrentAgentId m.vmRepo snapshot hf _).1,
      (faithful_FindCurrentAgentId m.vmRepo snapshot hf _).1, hw]
    simp only [h2]

/-- Witness for C2 as amended: a run over a store that already holds `c0` and `a0`. -/
theorem Create_records_cid_only_witness :
    (findVMFailingManager.vmRepo.FindCurrentAgentId
        (findVMFailingManager.Create exampleStemcell exampleManifest
          { store := { CurrentVMCID := "c0", CurrentAgentID := "a0", otherFields := [] },
            trace := [] }).2).1 =
      (findVMFailingManager.vmRepo.FindCurrentAgentId
        { store := { CurrentVMCID := "c0", CurrentAgentID := "a0", otherFields := [] },
          trace := [] }).1 :=
  (Create_records_cid_only findVMFailingManager id memoryStore_faithful exampleStemcell
    exampleManifest
    { store := { CurrentVMCID := "c0", CurrentAgentID := "a0", otherFields := [] }, trace := [] }
    [] { CloudProperties := [], Env := [] } "a1" "c1" rfl rfl rfl rfl).2.2

/-- Counterexample to C2 as stated: over the faithful in-memory store, starting from an empty
record, with `Generate` giving the non-empty `a1` and `CreateVM` giving `c1`, the one `Save`
that `Create` makes carries `CurrentAgentID = ""`, and `FindCurrentAgentId()` afterwards
returns `("", false, nil)`, not `("a1", true, nil)`. -/
theorem Create_agentID_not_persisted :
    Faithful findVMFailingManager.vmRepo.deploymentStateService id ∧
      findVMFailingManager.uuidGenerator.Generate = Except.ok "a1" ∧ "a1" ≠ "" ∧
      findVMFailingManager.cloud.CreateVM "a1" exampleStemcell.CID [] [] [] = Except.ok "c1" ∧
      (findVMFailingManager.Create exampleStemcell exampleManifest emptyWorld).2.trace.filterMap
          Call.saved = [{ CurrentVMCID := "c1", CurrentAgentID := "", otherFields := [] }] ∧
      (findVMFailingManager.vmRepo.FindCurrentAgentId
        (findVMFailingManager.Create exampleStemcell exampleManifest emptyWorld).2).1 =
          ("", false, none) ∧
      (findVMFailingManager.vmRepo.FindCurrentAgentId
        (findVMFailingManager.Create exampleStemcell exampleManifest emptyWorld).2).1 ≠
          ("a1", true, none) :=
  ⟨memoryStore_faithful, rfl, by decide, rfl, by decide, by decide, by decide⟩

/-- C4. For every run of `Create` in which steps 1 to 4 succeed (`Load` gives `s`, `Save`
succeeds): if `SetVMMetadata` returns a cloud error of kind `NotImplementedError`, `Create`
behaves exactly as the same manager with a succeeding `SetVMMetadata` (same result, same
world) and goes on to log and call `FindVM(cid)`; if `SetVMMetadata` returns any other error
`e`, `Create` returns a nil handle and `e` wrapped with "Setting VM metadata to ...", and the
calls it made stop at `SetVMMetadata`: no `FindVM` and no `WriteFile`. -/
theorem Create_metadata_error_handling (m : manager σ) (stemcell : CloudStemcell)
    (man : Manifest) (w : World σ) (ni : List (String × PropertyMap)) (rp : ResourcePool)
    (agentID cid : String) (s : DeploymentState)
    (hni : man.NetworkInterfaces man.JobName = Except.ok ni)
    (hrp : man.ResourcePool man.JobName = Except.ok rp)
    (hgen : m.uuidGenerator.Generate = Except.ok agentID)
    (hcreate : m.cloud.CreateVM agentID stemcell.CID rp.CloudProperties ni rp.Env =
      Except.ok cid)
    (hload : (m.vmRepo.deploymentStateService.Load w.store).1 = Except.ok s)
    (hsave : (m.vmRepo.deploymentStateService.Save { s with CurrentVMCID := cid }
      (m.vmRepo.deploymentStateService.Load w.store).2).1 = none) :
    (∀ message, m.cloud.SetVMMetadata cid (createMetadata man) =
        some (GoError.cloud NotImplementedError message) →
      m.Create stemcell man w = m.withTaggingSucceeding.Create stemcell man w ∧
      (w.trace ++ createVMCalls m.logTag stemcell man ni rp agentID ++
        [Call.Load, Call.Save { s with CurrentVMCID := cid },
          Call.SetVMMetadata cid (createMetadata man),
          Call.Debug m.logTag "WJQ: pre find_vm", Call.FindVM cid]) <+:
        (m.Create stemcell man w).2.trace) ∧
    (∀ e, m.cloud.SetVMMetadata cid (createMetadata man) = some e →
      (∀ message, e ≠ GoError.cloud NotImplementedError message) →
      m.Create stemcell man w =
        ((none, some (GoError.wrapped
            ("Setting VM metadata to " ++ (createMetadata man).format) e)),
          { store := (m.vmRepo.deploymentStateService.Save { s with CurrentVMCID := cid }
              (m.vmRepo.deploymentStateService.Load w.store).2).2,
            trace := w.trace ++ createVMCalls m.logTag stemcell man ni rp agentID ++
              [Call.Load, Call.Save { s with CurrentVMCID := cid },
                Call.SetVMMetadata cid (createMetadata man)] }) ∧
      ∀ c ∈ createVMCalls m.logTag stemcell man ni rp agentID ++
          [Call.Load, Call.Save { s with CurrentVMCID := cid },
            Call.SetVMMetadata cid (createMetadata man)],
        (∀ x, c ≠ Call.FindVM x) ∧ (∀ path content, c ≠ Call.WriteFile path content)) := by
  have hupd := UpdateCurrent_of_load_save m.vmRepo cid
    { store := w.store, trace := w.trace ++ createVMCalls m.logTag stemcell man ni rp agentID }
    s hload hsave
  constructor
  · intro message hm
    have hmeta : ∀ e, m.cloud.SetVMMetadata cid (createMetadata man) = some e →
        e.isCloudErrorOfType NotImplementedError = true := by
      intro e he
      rw [hm] at he
      cases he
      simp [GoError.isCloudErrorOfType]
    have hmeta2 : ∀ e, m.withTaggingSucceeding.cloud.SetVMMetadata cid (createMetadata man) =
        some e → e.isCloudErrorOfType NotImplementedError = true := by
      intro e he
      cases he
    cases hfind : m.cloud.FindVM cid with
    | error e =>
      rw [Create_findVM_error m stemcell man w ni rp agentID cid e _ hni hrp hgen hcreate hupd
          hmeta hfind,
        Create_findVM_error m.withTaggingSucceeding stemcell man w ni rp agentID cid e _ hni hrp
          hgen hcreate hupd hmeta2 hfind]
      exact ⟨rfl, ⟨[], by simp⟩⟩
    | ok p =>
      obtain ⟨hostname, privateIP⟩ := p
      cases hexec : m.template.Execute etcHostsTemplate
          { fullyQualifiedDomainName := hostname, primaryBackendIpAddress := privateIP } with
      | error e =>
        rw [Create_execute_error m stemcell man w ni rp agentID cid hostname privateIP e _ hni
            hrp hgen hcreate hupd hmeta hfind hexec,
          Create_execute_error m.withTaggingSucceeding stemcell man w ni rp agentID cid hostname
            privateIP e _ hni hrp hgen hcreate hupd hmeta2 hfind hexec]
        exact ⟨rfl, ⟨[], by simp⟩⟩
      | ok buffer =>
        cases hwrite : m.fs.WriteFile "/etc/hosts" buffer with
        | some e =>
          rw [Create_writeFile_error m stemcell man w ni rp agentID cid hostname privateIP
              buffer e _ hni hrp hgen hcreate hupd hmeta hfind hexec hwrite,
            Create_writeFile_error m.withTaggingSucceeding stemcell man w ni rp agentID cid
              hostname privateIP buffer e _ hni hrp hgen hcreate hupd hmeta2 hfind hexec hwrite]
          exact ⟨rfl, ⟨[Call.WriteFile "/etc/hosts" buffer], by simp⟩⟩
        | none =>
          rw [Create_success m stemcell man w ni rp agentID cid hostname privateIP
              buffer _ hni hrp hgen hcreate hupd hmeta hfind hexec hwrite,
            Create_success m.withTaggingSucceeding stemcell man w ni rp agentID cid
              hostname privateIP buffer _ hni hrp hgen hcreate hupd hmeta2 hfind hexec hwrite]
          exact ⟨rfl, ⟨[Call.WriteFile "/etc/hosts" buffer,
            Call.Debug m.logTag "WJQ Post find_vm"], by simp⟩⟩
  · intro e he hk
    rw [Create_setVMMetadata_error m stemcell man w ni rp agentID cid e _ hni hrp hgen hcreate
      hupd he ((isCloudErrorOfType_eq_false_iff e NotImplementedError).2 hk)]
    refine ⟨?_, ?_⟩
    · simp [WrapErrorf]
    · intro c hc
      simp only [createVMCalls, List.mem_append, List.mem_cons, List.mem_singleton,
        List.not_mem_nil, or_false] at hc
      rcases hc with (h | h | h | h | h) | h | h | h <;> subst h <;> simp

/-- Witness for C4: one run with a NotImplemented tagging error, one with another error. -/
theorem Create_metadata_error_handling_witness :
    notImplementedManager.Create exampleStemcell exampleManifest emptyWorld =
        notImplementedManager.withTaggingSucceeding.Create exampleStemcell exampleManifest
          emptyWorld ∧
      (metadataFailingManager.Create exampleStemcell exampleManifest emptyWorld).1 =
        (none, some (GoError.wrapped
          ("Setting VM metadata to " ++ (createMetadata exampleManifest).format)
          (GoError.plain "tagging failed"))) :=
  ⟨((Create_metadata_error_handling notImplementedManager exampleStemcell exampleManifest
      emptyWorld [] { CloudProperties := [], Env := [] } "a1" "c1" emptyWorld.store rfl rfl rfl
      rfl rfl rfl).1 "set_vm_metadata is not implemented" rfl).1,
    congrArg Prod.fst
      ((Create_metadata_error_handling metadataFailingManager exampleStemcell exampleManifest
        emptyWorld [] { CloudProperties := [], Env := [] } "a1" "c1" emptyWorld.store rfl rfl rfl
        rfl rfl rfl).2 (GoError.plain "tagging failed") rfl
        (fun _ h => GoError.noConfusion h)).1⟩

/-- C5. For every run of `Create`: (1) if `CreateVM` succeeds with `cid` and
`UpdateCurrent(cid)` fails with `e`, `Create` returns a nil handle and `e` wrapped with
"Updating current vm record", its final world is the one `UpdateCurrent` returned (the calls
made end with `Load`, or `Load` and the failed `Save`), and none of the calls made is a
`SetVMMetadata`, `FindVM`, `WriteFile` or `DeleteVM`; (2) in every run, either no such call is
made at all, or `UpdateCurrent(cid)` returned nil and every such call lies after the point
where it returned. -/
theorem Create_record_failure_stops (m : manager σ) (stemcell : CloudStemcell)
    (man : Manifest) (w : World σ) :
    (∀ ni rp agentID cid e,
      man.NetworkInterfaces man.JobName = Except.ok ni →
      man.ResourcePool man.JobName = Except.ok rp →
      m.uuidGenerator.Generate = Except.ok agentID →
      m.cloud.CreateVM agentID stemcell.CID rp.CloudProperties ni rp.Env = Except.ok cid →
      (m.vmRepo.UpdateCurrent cid
        { store := w.store,
          trace := w.trace ++ createVMCalls m.logTag stemcell man ni rp agentID }).1 = some e →
      m.Create stemcell man w =
        ((none, some (GoError.wrapped "Updating current vm record" e)),
          (m.vmRepo.UpdateCurrent cid
            { store := w.store,
              trace := w.trace ++ createVMCalls m.logTag stemcell man ni rp agentID }).2) ∧
      ∃ made, (m.Create stemcell man w).2.trace = w.trace ++ made ∧
        (made = createVMCalls m.logTag stemcell man ni rp agentID ++ [Call.Load] ∨
          ∃ d, made = createVMCalls m.logTag stemcell man ni rp agentID ++
            [Call.Load, Call.Save d]) ∧
        ∀ c ∈ made, c.isLaterStep = false) ∧
    (∃ made, (m.Create stemcell man w).2.trace = w.trace ++ made ∧
      ((∀ c ∈ made, c.isLaterStep = false) ∨
        ∃ ni rp agentID cid pre post,
          man.NetworkInterfaces man.JobName = Except.ok ni ∧
          man.ResourcePool man.JobName = Except.ok rp ∧
          m.uuidGenerator.Generate = Except.ok agentID ∧
          m.cloud.CreateVM agentID stemcell.CID rp.CloudProperties ni rp.Env = Except.ok cid ∧
          (m.vmRepo.UpdateCurrent cid
            { store := w.store,
              trace := w.trace ++ createVMCalls m.logTag stemcell man ni rp agentID }).1 = none ∧
          (m.vmRepo.UpdateCurrent cid
            { store := w.store,
              trace := w.trace ++ createVMCalls m.logTag stemcell man ni rp agentID }).2.trace =
            w.trace ++ pre ∧
          made = pre ++ post ∧ ∀ c ∈ pre, c.isLaterStep = false)) := by
  have key : ∀ ni rp agentID cid e,
      man.NetworkInterfaces man.JobName = Except.ok ni →
      man.ResourcePool man.JobName = Except.ok rp →
      m.uuidGenerator.Generate = Except.ok agentID →
      m.cloud.CreateVM agentID stemcell.CID rp.CloudProperties ni rp.Env = Except.ok cid →
      (m.vmRepo.UpdateCurrent cid
        { store := w.store,
          trace := w.trace ++ createVMCalls m.logTag stemcell man ni rp agentID }).1 = some e →
      m.Create stemcell man w =
        ((none, some (GoError.wrapped "Updating current vm record" e)),
          (m.vmRepo.UpdateCurrent cid
            { store := w.store,
              trace := w.trace ++ createVMCalls m.logTag stemcell man ni rp agentID }).2) ∧
      ∃ made, (m.Create stemcell man w).2.trace = w.trace ++ made ∧
        (made = createVMCalls m.logTag stemcell man ni rp agentID ++ [Call.Load] ∨
          ∃ d, made = createVMCalls m.logTag stemcell man ni rp agentID ++
            [Call.Load, Call.Save d]) ∧
        ∀ c ∈ made, c.isLaterStep = false := by
    intro ni rp agentID cid e hni hrp hgen hcreate hupd
    have hc := Create_updateCurrent_error m stemcell man w ni rp agentID cid e _ hni hrp hgen
      hcreate (Prod.ext hupd rfl)
    refine ⟨hc, ?_⟩
    rw [hc]
    rcases UpdateCurrent_trace m.vmRepo cid
      { store := w.store,
        trace := w.trace ++ createVMCalls m.logTag stemcell man ni rp agentID } with h | ⟨d, h⟩
    · refine ⟨_, by rw [h, List.append_assoc], Or.inl rfl, ?_⟩
      intro c hc
      simp only [createVMCalls, List.mem_append, List.mem_cons, List.mem_singleton,
        List.not_mem_nil, or_false] at hc
      rcases hc with (h | h | h | h | h) | h <;> subst h <;> rfl
    · refine ⟨_, by rw [h, List.append_assoc], Or.inr ⟨d, rfl⟩, ?_⟩
      intro c hc
      simp only [createVMCalls, List.mem_append, List.mem_cons, List.mem_singleton,
        List.not_mem_nil, or_false] at hc
      rcases hc with (h | h | h | h | h) | h | h <;> subst h <;> rfl
  refine ⟨key, ?_⟩
  cases hni : man.NetworkInterfaces man.JobName with
  | error e =>
    rw [Create_networkInterfaces_error m stemcell man w e hni]
    exact ⟨_, rfl, Or.inl (by simp [Call.isLaterStep])⟩
  | ok ni =>
    cases hrp : man.ResourcePool man.JobName with
    | error e =>
      rw [Create_resourcePool_error m stemcell man w ni e hni hrp]
      exact ⟨_, rfl, Or.inl (by simp [Call.isLaterStep])⟩
    | ok rp =>
      cases hgen : m.uuidGenerator.Generate with
      | error e =>
        rw [Create_generate_error m stemcell man w ni rp e hni hrp hgen]
        exact ⟨_, rfl, Or.inl (by simp [Call.isLaterStep])⟩
      | ok agentID =>
        cases hcreate : m.cloud.CreateVM agentID stemcell.CID rp.CloudProperties ni rp.Env with
        | error e =>
          rw [Create_createVM_error m stemcell man w ni rp agentID e hni hrp hgen hcreate]
          exact ⟨_, rfl, Or.inl (by simp [Call.isLaterStep, createVMCalls])⟩
        | ok cid =>
          cases hupd : (m.vmRepo.UpdateCurrent cid
            { store := w.store,
              trace := w.trace ++ createVMCalls m.logTag stemcell man ni rp agentID }).1 with
          | some e =>
            obtain ⟨_, made, h1, _, h3⟩ := key ni rp agentID cid e hni hrp hgen hcreate hupd
            exact ⟨made, h1, Or.inl h3⟩
          | none =>
            obtain ⟨post, hw, _⟩ := Create_after_record m stemcell man w ni rp agentID cid _ hni
              hrp hgen hcreate (Prod.ext hupd rfl)
            rw [hw]
            rcases UpdateCurrent_trace m.vmRepo cid
              { store := w.store,
                trace := w.trace ++ createVMCalls m.logTag stemcell man ni rp agentID }
              with h | ⟨d, h⟩
            · refine ⟨(createVMCalls m.logTag stemcell man ni rp agentID ++ [Call.Load]) ++ post,
                by simp only [h, List.append_assoc], Or.inr ⟨ni, rp, agentID, cid,
                  createVMCalls m.logTag stemcell man ni rp agentID ++ [Call.Load], post, rfl,
                  rfl, rfl, hcreate, hupd, by rw [h, List.append_assoc], rfl, ?_⟩⟩
              intro c hc
              simp only [createVMCalls, List.mem_append, List.mem_cons, List.mem_singleton,
                List.not_mem_nil, or_false] at hc
              rcases hc with (h | h | h | h | h) | h <;> subst h <;> rfl
            · refine ⟨(createVMCalls m.logTag stemcell man ni rp agentID ++
                  [Call.Load, Call.Save d]) ++ post,
                by simp only [h, List.append_assoc], Or.inr ⟨ni, rp, agentID, cid,
                  createVMCalls m.logTag stemcell man ni rp agentID ++ [Call.Load, Call.Save d],
                  post, rfl, rfl, rfl, hcreate, hupd, by rw [h, List.append_assoc], rfl, ?_⟩⟩
              intro c hc
              simp only [createVMCalls, List.mem_append, List.mem_cons, List.mem_singleton,
                List.not_mem_nil, or_false] at hc
              rcases hc with (h | h | h | h | h) | h | h <;> subst h <;> rfl

/-- Witness for C5: the cloud creates `c1` and the store then fails to save. -/
theorem Create_record_failure_stops_witness :
    (saveFailingManager.Create exampleStemcell exampleManifest emptyWorld).1 =
      (none, some (GoError.wrapped "Updating current vm record"
        (GoError.wrapped "Saving new config" (GoError.plain "disk full")))) :=
  congrArg Prod.fst
    ((Create_record_failure_stops saveFailingManager exampleStemcell exampleManifest
      emptyWorld).1 [] { CloudProperties := [], Env := [] } "a1" "c1"
      (GoError.wrapped "Saving new config" (GoError.plain "disk full")) rfl rfl rfl rfl rfl).1

/-- C17, the code at the claim's input. With the Go template package as the renderer, no run
of `Create` returns a nil error: the handle is always nil and the error non-nil, because the
hosts-file step fails at rendering. In particular, in the run where every collaborator
succeeds (both manifest lookups, `Generate` giving `a1`, `CreateVM` giving `c1`,
`UpdateCurrent` returning nil, `SetVMMetadata` returning nil, `FindVM` giving `vm-1.example`
and `10.0.0.5`, and a file system whose `WriteFile` returns nil for every path and content),
`Create` returns a nil handle and the rendering error wrapped with "Writing to /etc/hosts",
not a nil error with the handle for `c1`. -/
theorem Create_fails_though_collaborators_succeed {σ : Type} (m : manager σ)
    (stemcell : CloudStemcell) (man : Manifest) (w : World σ) :
    (({ m with template := goTemplate } : manager σ).Create stemcell man w).1.1 = none ∧
      (({ m with template := goTemplate } : manager σ).Create stemcell man w).1.2 ≠ none ∧
      exampleManifest.NetworkInterfaces exampleManifest.JobName = Except.ok [] ∧
      exampleManifest.ResourcePool exampleManifest.JobName =
        Except.ok { CloudProperties := [], Env := [] } ∧
      goTemplateManager.uuidGenerator.Generate = Except.ok "a1" ∧
      goTemplateManager.cloud.CreateVM "a1" exampleStemcell.CID [] [] [] = Except.ok "c1" ∧
      (goTemplateManager.vmRepo.UpdateCurrent "c1"
        { store := emptyWorld.store,
          trace := emptyWorld.trace ++ createVMCalls goTemplateManager.logTag exampleStemcell
            exampleManifest [] { CloudProperties := [], Env := [] } "a1" }).1 = none ∧
      goTemplateManager.cloud.SetVMMetadata "c1" (createMetadata exampleManifest) = none ∧
      goTemplateManager.cloud.FindVM "c1" = Except.ok ("vm-1.example", "10.0.0.5") ∧
      (∀ path content, goTemplateManager.fs.WriteFile path content = none) ∧
      (goTemplateManager.Create exampleStemcell exampleManifest emptyWorld).1 =
        (none, some (GoError.wrapped "Writing to /etc/hosts"
          (GoError.wrapped "Generating config from template" (GoError.plain
            "primaryBackendIpAddress is an unexported field of struct type vm.softlayerVM")))) ∧
      (goTemplateManager.Create exampleStemcell exampleManifest emptyWorld).1 ≠
        (some (NewVM "c1"), none) := by
  have key : (({ m with template := goTemplate } : manager σ).Create stemcell man w).1.1 = none ∧
      (({ m with template := goTemplate } : manager σ).Create stemcell man w).1.2 ≠ none := by
    rcases Create_outcome ({ m with template := goTemplate } : manager σ) stemcell man w with
      h | ⟨ni, rp, a, c, hn, ip, b, hs, _⟩
    · exact h
    · obtain ⟨_, _, _, _, _, _, _, hexec, _⟩ := hs
      rw [goTemplate_Execute_etcHostsTemplate] at hexec
      cases hexec
  refine ⟨key.1, key.2, rfl, rfl, rfl, rfl, ?_, rfl, rfl, fun _ _ => rfl, ?_, ?_⟩ <;> decide

/-- C15, the code at the claim's input. With the Go template package as the renderer,
rendering `etcHostsTemplate` fails for every hostname and private IP, because the two fields
the template names are unexported fields of `softlayerVM`: `setupBoshInitEtcHosts` returns the
error wrapped with "Generating config from template" and leaves the world as it was, so no
`WriteFile` is called. For `FindVM` giving `vm-1.example` and `10.0.0.5`, `Create` returns a
nil handle and that error wrapped once more with "Writing to /etc/hosts", and the calls it made
contain no `WriteFile` at all, so not the one with the content
`"127.0.0.1 localhost\n10.0.0.5 vm-1.example\n"`. -/
theorem setupBoshInitEtcHosts_rendering_fails {σ : Type} (m : manager σ) (vm : softlayerVM)
    (w : World σ) :
    ({ m with template := goTemplate } : manager σ).setupBoshInitEtcHosts vm w =
        (some (GoError.wrapped "Generating config from template" (GoError.plain
          "primaryBackendIpAddress is an unexported field of struct type vm.softlayerVM")),
          w) ∧
      goTemplateManager.cloud.FindVM "c1" = Except.ok ("vm-1.example", "10.0.0.5") ∧
      (goTemplateManager.setupBoshInitEtcHosts
          { fullyQualifiedDomainName := "vm-1.example", primaryBackendIpAddress := "10.0.0.5" }
          emptyWorld).1 =
        some (GoError.wrapped "Generating config from template" (GoError.plain
          "primaryBackendIpAddress is an unexported field of struct type vm.softlayerVM")) ∧
      (goTemplateManager.setupBoshInitEtcHosts
          { fullyQualifiedDomainName := "vm-1.example", primaryBackendIpAddress := "10.0.0.5" }
          emptyWorld).2.trace = [] ∧
      (goTemplateManager.Create exampleStemcell exampleManifest emptyWorld).1 =
        (none, some (GoError.wrapped "Writing to /etc/hosts"
          (GoError.wrapped "Generating config from template" (GoError.plain
            "primaryBackendIpAddress is an unexported field of struct type vm.softlayerVM")))) ∧
      Call.WriteFile "/etc/hosts" "127.0.0.1 localhost\n10.0.0.5 vm-1.example\n" ∉
        (goTemplateManager.Create exampleStemcell exampleManifest emptyWorld).2.trace ∧
      (goTemplateManager.Create exampleStemcell exampleManifest emptyWorld).2.trace.filter
        Call.isWriteFile = [] := by
  refine ⟨?_, rfl, ?_, ?_, ?_, ?_, ?_⟩
  · simp only [manager.setupBoshInitEtcHosts, goTemplate_Execute_etcHostsTemplate, WrapError]
  all_goals decide

end CreateClaims

/-! ## The record store and `FindCurrent`: claims -/

section RepoClaims

variable {σ : Type}

/-- C6. Round trip: over a faithful state store, for every initial world and every non-empty
`c`, `UpdateCurrent(c)` returns nil and a following `FindCurrent()` returns `(c, true, nil)`. -/
theorem UpdateCurrent_FindCurrent_roundtrip (r : vMRepo σ) (snapshot : σ → DeploymentState)
    (hf : Faithful r.deploymentStateService snapshot) (w : World σ) (c : String)
    (hc : c ≠ "") :
    (r.UpdateCurrent c w).1 = none ∧
      (r.FindCurrent (r.UpdateCurrent c w).2).1 = (c, true, none) := by
  obtain ⟨h1, h2, _⟩ := faithful_UpdateCurrent r snapshot hf c w
  refine ⟨h1, ?_⟩
  rw [(faithful_FindCurrent r snapshot hf _).1, h2]
  simp [hc]

/-- Witness for C6 on the in-memory store, with a record already present. -/
theorem UpdateCurrent_FindCurrent_roundtrip_witness :
    Faithful (NewVMRepo memoryStore).deploymentStateService id ∧ "c1" ≠ "" ∧
      ((NewVMRepo memoryStore).UpdateCurrent "c1"
        { store := { CurrentVMCID := "c0", CurrentAgentID := "a0", otherFields := [] },
          trace := [] }).1 = none ∧
      ((NewVMRepo memoryStore).FindCurrent
        ((NewVMRepo memoryStore).UpdateCurrent "c1"
          { store := { CurrentVMCID := "c0", CurrentAgentID := "a0", otherFields := [] },
            trace := [] }).2).1 = ("c1", true, none) :=
  ⟨memoryStore_faithful, by decide,
    UpdateCurrent_FindCurrent_roundtrip (NewVMRepo memoryStore) id memoryStore_faithful
      { store := { CurrentVMCID := "c0", CurrentAgentID := "a0", otherFields := [] },
        trace := [] } "c1" (by decide)⟩

/-- C7. For every state store whose `Load` succeeds with snapshot `s`, `FindCurrent()` returns
a nil error; `found = false` iff `s.CurrentVMCID` is empty; when found the cid is
`s.CurrentVMCID`, and when not found the cid is the empty string. -/
theorem FindCurrent_found_iff (r : vMRepo σ) (w : World σ) (s : DeploymentState)
    (hl : (r.deploymentStateService.Load w.store).1 = Except.ok s) :
    (r.FindCurrent w).1.2.2 = none ∧
      ((r.FindCurrent w).1.2.1 = false ↔ s.CurrentVMCID = "") ∧
      ((r.FindCurrent w).1.2.1 = true → (r.FindCurrent w).1.1 = s.CurrentVMCID) ∧
      ((r.FindCurrent w).1.2.1 = false → (r.FindCurrent w).1.1 = "") := by
  rw [FindCurrent_of_load r w s hl]
  by_cases h : s.CurrentVMCID = "" <;> simp [h]

/-- Witness for C7: a store holding the record `c1`. -/
theorem FindCurrent_found_iff_witness :
    (memoryStore.Load { CurrentVMCID := "c1", CurrentAgentID := "", otherFields := [] }).1 =
        Except.ok { CurrentVMCID := "c1", CurrentAgentID := "", otherFields := [] } ∧
      ((NewVMRepo memoryStore).FindCurrent
        { store := { CurrentVMCID := "c1", CurrentAgentID := "", otherFields := [] },
          trace := [] }).1.2.2 = none :=
  ⟨rfl, (FindCurrent_found_iff (NewVMRepo memoryStore)
    { store := { CurrentVMCID := "c1", CurrentAgentID := "", otherFields := [] }, trace := [] }
    { CurrentVMCID := "c1", CurrentAgentID := "", otherFields := [] } rfl).1⟩

/-- C8. For every state store whose `Load` succeeds with snapshot `s`, `FindCurrentAgentId()`
returns a nil error; `found = false` iff `s.CurrentAgentID` is empty; when found the agent id
is `s.CurrentAgentID`. -/
theorem FindCurrentAgentId_found_iff (r : vMRepo σ) (w : World σ) (s : DeploymentState)
    (hl : (r.deploymentStateService.Load w.store).1 = Except.ok s) :
    (r.FindCurrentAgentId w).1.2.2 = none ∧
      ((r.FindCurrentAgentId w).1.2.1 = false ↔ s.CurrentAgentID = "") ∧
      ((r.FindCurrentAgentId w).1.2.1 = true →
        (r.FindCurrentAgentId w).1.1 = s.CurrentAgentID) := by
  rw [FindCurrentAgentId_of_load r w s hl]
  by_cases h : s.CurrentAgentID = "" <;> simp [h]

/-- Witness for C8: a store holding the agent id `a1` and no cid. -/
theorem FindCurrentAgentId_found_iff_witness :
    (memoryStore.Load { CurrentVMCID := "", CurrentAgentID := "a1", otherFields := [] }).1 =
        Except.ok { CurrentVMCID := "", CurrentAgentID := "a1", otherFields := [] } ∧
      ((NewVMRepo memoryStore).FindCurrentAgentId
        { store := { CurrentVMCID := "", CurrentAgentID := "a1", otherFields := [] },
          trace := [] }).1.2.2 = none :=
  ⟨rfl, (FindCurrentAgentId_found_iff (NewVMRepo memoryStore)
    { store := { CurrentVMCID := "", CurrentAgentID := "a1", otherFields := [] }, trace := [] }
    { CurrentVMCID := "", CurrentAgentID := "a1", otherFields := [] } rfl).1⟩

/-- C9. Independence: over a faithful state store, for all non-empty `c` and `a`, after
`UpdateCurrent(c)` then `UpdateCurrentAgentId(a)` both updates return nil, `FindCurrent()`
returns `(c, true, nil)` and `FindCurrentAgentId()` (asked directly, or after that
`FindCurrent()`) returns `(a, true, nil)`; the same holds with the two updates in the
opposite order. -/
theorem UpdateCurrent_UpdateCurrentAgentId_independent (r : vMRepo σ)
    (snapshot : σ → DeploymentState) (hf : Faithful r.deploymentStateService snapshot)
    (w : World σ) (c a : String) (hc : c ≠ "") (ha : a ≠ "") :
    ((r.UpdateCurrent c w).1 = none ∧
      (r.UpdateCurrentAgentId a (r.UpdateCurrent c w).2).1 = none ∧
      (r.FindCurrent (r.UpdateCurrentAgentId a (r.UpdateCurrent c w).2).2).1 =
        (c, true, none) ∧
      (r.FindCurrentAgentId (r.UpdateCurrentAgentId a (r.UpdateCurrent c w).2).2).1 =
        (a, true, none) ∧
      (r.FindCurrentAgentId
        (r.FindCurrent (r.UpdateCurrentAgentId a (r.UpdateCurrent c w).2).2).2).1 =
        (a, true, none)) ∧
    ((r.UpdateCurrentAgentId a w).1 = none ∧
      (r.UpdateCurrent c (r.UpdateCurrentAgentId a w).2).1 = none ∧
      (r.FindCurrent (r.UpdateCurrent c (r.UpdateCurrentAgentId a w).2).2).1 =
        (c, true, none) ∧
      (r.FindCurrentAgentId (r.UpdateCurrent c (r.UpdateCurrentAgentId a w).2).2).1 =
        (a, true, none) ∧
      (r.FindCurrentAgentId
        (r.FindCurrent (r.UpdateCurrent c (r.UpdateCurrentAgentId a w).2).2).2).1 =
        (a, true, none)) := by
  constructor
  · obtain ⟨h1, h2, _⟩ := faithful_UpdateCurrent r snapshot hf c w
    obtain ⟨h3, h4, _⟩ := faithful_UpdateCurrentAgentId r snapshot hf a (r.UpdateCurrent c w).2
    refine ⟨h1, h3, ?_, ?_, ?_⟩
    · rw [(faithful_FindCurrent r snapshot hf _).1, h4, h2]
      simp [hc]
    · rw [(faithful_FindCurrentAgentId r snapshot hf _).1, h4, h2]
      simp [ha]
    · rw [(faithful_FindCurrentAgentId r snapshot hf _).1,
        (faithful_FindCurrent r snapshot hf _).2, h4, h2]
      simp [ha]
  · obtain ⟨h1, h2, _⟩ := faithful_UpdateCurrentAgentId r snapshot hf a w
    obtain ⟨h3, h4, _⟩ := faithful_UpdateCurrent r snapshot hf c (r.UpdateCurrentAgentId a w).2
    refine ⟨h1, h3, ?_, ?_, ?_⟩
    · rw [(faithful_FindCurrent r snapshot hf _).1, h4, h2]
      simp [hc]
    · rw [(faithful_FindCurrentAgentId r snapshot hf _).1, h4, h2]
      simp [ha]
    · rw [(faithful_FindCurrentAgentId r snapshot hf _).1,
        (faithful_FindCurrent r snapshot hf _).2, h4, h2]
      simp [ha]

/-- Witness for C9 on the in-memory store, starting from an empty record. -/
theorem UpdateCurrent_UpdateCurrentAgentId_independent_witness :
    Faithful (NewVMRepo memoryStore).deploymentStateService id ∧ "c1" ≠ "" ∧ "a1" ≠ "" ∧
      ((NewVMRepo memoryStore).FindCurrent
        ((NewVMRepo memoryStore).UpdateCurrentAgentId "a1"
          ((NewVMRepo memoryStore).UpdateCurrent "c1"
            { store := { CurrentVMCID := "", CurrentAgentID := "", otherFields := [] },
              trace := [] }).2).2).1 = ("c1", true, none) ∧
      ((NewVMRepo memoryStore).FindCurrentAgentId
        ((NewVMRepo memoryStore).UpdateCurrentAgentId "a1"
          ((NewVMRepo memoryStore).UpdateCurrent "c1"
            { store := { CurrentVMCID := "", CurrentAgentID := "", otherFields := [] },
              trace := [] }).2).2).1 = ("a1", true, none) :=
  ⟨memoryStore_faithful, by decide, by decide,
    (UpdateCurrent_UpdateCurrentAgentId_independent (NewVMRepo memoryStore) id
      memoryStore_faithful
      { store := { CurrentVMCID := "", CurrentAgentID := "", otherFields := [] }, trace := [] }
      "c1" "a1" (by decide) (by decide)).1.2.2.1,
    (UpdateCurrent_UpdateCurrentAgentId_independent (NewVMRepo memoryStore) id
      memoryStore_faithful
      { store := { CurrentVMCID := "", CurrentAgentID := "", otherFields := [] }, trace := [] }
      "c1" "a1" (by decide) (by decide)).1.2.2.2.1⟩

/-- C10. For every loaded snapshot `s` and every `c`, `UpdateCurrent(c)` calls `Load` and then
hands to the store's `Save`, once, the snapshot `s` with only `CurrentVMCID` replaced by `c`
(`CurrentAgentID` and every other field are those of `s`): its error is that `Save`'s error,
wrapped, its final store is the store that `Save` returns for that snapshot, and the calls it
logs are `Load` and that `Save`. -/
theorem UpdateCurrent_saves_only_cid (r : vMRepo σ) (w : World σ) (s : DeploymentState)
    (c : String) (hl : (r.deploymentStateService.Load w.store).1 = Except.ok s) :
    r.UpdateCurrent c w =
      (((r.deploymentStateService.Save
            { CurrentVMCID := c, CurrentAgentID := s.CurrentAgentID,
              otherFields := s.otherFields }
            (r.deploymentStateService.Load w.store).2).1).map
          (fun err => WrapError err "Saving new config"),
        { store := (r.deploymentStateService.Save
            { CurrentVMCID := c, CurrentAgentID := s.CurrentAgentID,
              otherFields := s.otherFields }
            (r.deploymentStateService.Load w.store).2).2,
          trace := w.trace ++ [Call.Load, Call.Save
            { CurrentVMCID := c, CurrentAgentID := s.CurrentAgentID,
              otherFields := s.otherFields }] }) :=
  UpdateCurrent_of_load r c w s hl

/-- Witness for C10: a store holding `c0`, `a0` and one further field; afterwards it holds
`c1`, `a0` and that field. -/
theorem UpdateCurrent_saves_only_cid_witness :
    (memoryStore.Load
        { CurrentVMCID := "c0", CurrentAgentID := "a0", otherFields := [("director_id", "d")] }).1 =
      Except.ok
        { CurrentVMCID := "c0", CurrentAgentID := "a0", otherFields := [("director_id", "d")] } ∧
    (NewVMRepo memoryStore).UpdateCurrent "c1"
        { store := { CurrentVMCID := "c0", CurrentAgentID := "a0",
                     otherFields := [("director_id", "d")] },
          trace := [] } =
      (none,
        { store := { CurrentVMCID := "c1", CurrentAgentID := "a0",
                     otherFields := [("director_id", "d")] },
          trace := [Call.Load, Call.Save
            { CurrentVMCID := "c1", CurrentAgentID := "a0",
              otherFields := [("director_id", "d")] }] }) :=
  ⟨rfl, UpdateCurrent_saves_only_cid (NewVMRepo memoryStore)
    { store := { CurrentVMCID := "c0", CurrentAgentID := "a0",
                 otherFields := [("director_id", "d")] },
      trace := [] }
    { CurrentVMCID := "c0", CurrentAgentID := "a0", otherFields := [("director_id", "d")] }
    "c1" rfl⟩

/-- C11. For every loaded snapshot `s` and every `a`, `UpdateCurrentAgentId(a)` calls `Load`
and then hands to the store's `Save`, once, the snapshot `s` with only `CurrentAgentID`
replaced by `a` (`CurrentVMCID` and every other field are those of `s`): its error is that
`Save`'s error, wrapped, its final store is the store that `Save` returns for that snapshot,
and the calls it logs are `Load` and that `Save`. -/
theorem UpdateCurrentAgentId_saves_only_agentId (r : vMRepo σ) (w : World σ)
    (s : DeploymentState) (a : String)
    (hl : (r.deploymentStateService.Load w.store).1 = Except.ok s) :
    r.UpdateCurrentAgentId a w =
      (((r.deploymentStateService.Save
            { CurrentVMCID := s.CurrentVMCID, CurrentAgentID := a,
              otherFields := s.otherFields }
            (r.deploymentStateService.Load w.store).2).1).map
          (fun err => WrapError err "Saving new config"),
        { store := (r.deploymentStateService.Save
            { CurrentVMCID := s.CurrentVMCID, CurrentAgentID := a,
              otherFields := s.otherFields }
            (r.deploymentStateService.Load w.store).2).2,
          trace := w.trace ++ [Call.Load, Call.Save
            { CurrentVMCID := s.CurrentVMCID, CurrentAgentID := a,
              otherFields := s.otherFields }] }) :=
  UpdateCurrentAgentId_of_load r a w s hl

/-- Witness for C11: a store holding `c0`, `a0` and one further field; afterwards it holds
`c0`, `a1` and that field. -/
theorem UpdateCurrentAgentId_saves_only_agentId_witness :
    (NewVMRepo memoryStore).UpdateCurrentAgentId "a1"
        { store := { CurrentVMCID := "c0", CurrentAgentID := "a0",
                     otherFields := [("director_id", "d")] },
          trace := [] } =
      (none,
        { store := { CurrentVMCID := "c0", CurrentAgentID := "a1",
                     otherFields := [("director_id", "d")] },
          trace := [Call.Load, Call.Save
            { CurrentVMCID := "c0", CurrentAgentID := "a1",
              otherFields := [("director_id", "d")] }] }) :=
  UpdateCurrentAgentId_saves_only_agentId (NewVMRepo memoryStore)
    { store := { CurrentVMCID := "c0", CurrentAgentID := "a0",
                 otherFields := [("director_id", "d")] },
      trace := [] }
    { CurrentVMCID := "c0", CurrentAgentID := "a0", otherFields := [("director_id", "d")] }
    "a1" rfl

/-- C12. Over a faithful state store, whatever the prior snapshot, `ClearCurrent()` returns nil
and afterwards `FindCurrent()` and `FindCurrentAgentId()` (asked directly, or one after the
other) both return `found = false` with a nil error. -/
theorem ClearCurrent_then_not_found (r : vMRepo σ) (snapshot : σ → DeploymentState)
    (hf : Faithful r.deploymentStateService snapshot) (w : World σ) :
    (r.ClearCurrent w).1 = none ∧
      (r.FindCurrent (r.ClearCurrent w).2).1 = ("", false, none) ∧
      (r.FindCurrentAgentId (r.ClearCurrent w).2).1 = ("", false, none) ∧
      (r.FindCurrentAgentId (r.FindCurrent (r.ClearCurrent w).2).2).1 = ("", false, none) := by
  obtain ⟨h1, h2⟩ := faithful_ClearCurrent r snapshot hf w
  refine ⟨h1, ?_, ?_, ?_⟩
  · rw [(faithful_FindCurrent r snapshot hf _).1, h2]
    simp
  · rw [(faithful_FindCurrentAgentId r snapshot hf _).1, h2]
    simp
  · rw [(faithful_FindCurrentAgentId r snapshot hf _).1,
      (faithful_FindCurrent r snapshot hf _).2, h2]
    simp

/-- Witness for C12 on the in-memory store holding `c0` and `a0`. -/
theorem ClearCurrent_then_not_found_witness :
    Faithful (NewVMRepo memoryStore).deploymentStateService id ∧
      ((NewVMRepo memoryStore).FindCurrent
        ((NewVMRepo memoryStore).ClearCurrent
          { store := { CurrentVMCID := "c0", CurrentAgentID := "a0", otherFields := [] },
            trace := [] }).2).1 = ("", false, none) ∧
      ((NewVMRepo memoryStore).FindCurrentAgentId
        ((NewVMRepo memoryStore).ClearCurrent
          { store := { CurrentVMCID := "c0", CurrentAgentID := "a0", otherFields := [] },
            trace := [] }).2).1 = ("", false, none) :=
  ⟨memoryStore_faithful,
    (ClearCurrent_then_not_found (NewVMRepo memoryStore) id memoryStore_faithful
      { store := { CurrentVMCID := "c0", CurrentAgentID := "a0", otherFields := [] },
        trace := [] }).2.1,
    (ClearCurrent_then_not_found (NewVMRepo memoryStore) id memoryStore_faithful
      { store := { CurrentVMCID := "c0", CurrentAgentID := "a0", otherFields := [] },
        trace := [] }).2.2.1⟩

/-- C13. For every loaded snapshot `s`, `ClearCurrent()` calls `Load` and then hands to the
store's `Save`, exactly once, the snapshot `s` in which `CurrentVMCID` and `CurrentAgentID` are
both empty and every other field is unchanged: its error is that `Save`'s error, wrapped, its
final store is the store that `Save` returns for that snapshot, and the calls it logs are
`Load` and that one `Save`; every snapshot it passes to `Save` has both fields empty, so none
has only one of them cleared. -/
theorem ClearCurrent_clears_both_in_one_save (r : vMRepo σ) (w : World σ)
    (s : DeploymentState) (hl : (r.deploymentStateService.Load w.store).1 = Except.ok s) :
    r.ClearCurrent w =
      (((r.deploymentStateService.Save
            { CurrentVMCID := "", CurrentAgentID := "", otherFields := s.otherFields }
            (r.deploymentStateService.Load w.store).2).1).map
          (fun err => WrapError err "Saving new config"),
        { store := (r.deploymentStateService.Save
            { CurrentVMCID := "", CurrentAgentID := "", otherFields := s.otherFields }
            (r.deploymentStateService.Load w.store).2).2,
          trace := w.trace ++ [Call.Load, Call.Save
            { CurrentVMCID := "", CurrentAgentID := "", otherFields := s.otherFields }] }) ∧
    (∃ made, (r.ClearCurrent w).2.trace = w.trace ++ made ∧
      made = [Call.Load, Call.Save
        { CurrentVMCID := "", CurrentAgentID := "", otherFields := s.otherFields }] ∧
      made.filterMap Call.saved =
        [{ CurrentVMCID := "", CurrentAgentID := "", otherFields := s.otherFields }] ∧
      ∀ d ∈ made.filterMap Call.saved, d.CurrentVMCID = "" ∧ d.CurrentAgentID = "") := by
  refine ⟨ClearCurrent_of_load r w s hl, ?_⟩
  rw [ClearCurrent_of_load r w s hl]
  refine ⟨_, rfl, rfl, ?_, ?_⟩
  · simp [Call.saved, List.filterMap_cons]
  · intro d hd
    simp only [Call.saved, List.filterMap_cons, List.filterMap_nil, List.mem_singleton] at hd
    subst hd
    exact ⟨rfl, rfl⟩

/-- Witness for C13: a store holding `c0`, `a0` and one further field; afterwards it holds
that field and two empty identifiers. -/
theorem ClearCurrent_clears_both_in_one_save_witness :
    (NewVMRepo memoryStore).ClearCurrent
        { store := { CurrentVMCID := "c0", CurrentAgentID := "a0",
                     otherFields := [("director_id", "d")] },
          trace := [] } =
      (none,
        { store := { CurrentVMCID := "", CurrentAgentID := "",
                     otherFields := [("director_id", "d")] },
          trace := [Call.Load, Call.Save
            { CurrentVMCID := "", CurrentAgentID := "",
              otherFields := [("director_id", "d")] }] }) :=
  (ClearCurrent_clears_both_in_one_save (NewVMRepo memoryStore)
    { store := { CurrentVMCID := "c0", CurrentAgentID := "a0",
                 otherFields := [("director_id", "d")] },
      trace := [] }
    { CurrentVMCID := "c0", CurrentAgentID := "a0", otherFields := [("director_id", "d")] }
    rfl).1

/-- C14. Each of the five record-store operations returns a non-nil error exactly when a
store call it makes fails: the two finds iff `Load` fails; the two updates and `ClearCurrent`
iff `Load` fails or, `Load` having succeeded, `Save` fails. The error is the store error `e`
wrapped with "Loading existing config" for `Load` and "Saving new config" for `Save`, and on a
`Load` failure the finds return `("", false, err)`. -/
theorem vMRepo_error_iff_store_error (r : vMRepo σ) (w : World σ) (c a : String) :
    (((r.FindCurrent w).1.2.2 ≠ none ↔
        ∃ e, (r.deploymentStateService.Load w.store).1 = Except.error e) ∧
      ((r.FindCurrentAgentId w).1.2.2 ≠ none ↔
        ∃ e, (r.deploymentStateService.Load w.store).1 = Except.error e) ∧
      ((r.UpdateCurrent c w).1 ≠ none ↔
        (∃ e, (r.deploymentStateService.Load w.store).1 = Except.error e) ∨
        ∃ s e, (r.deploymentStateService.Load w.store).1 = Except.ok s ∧
          (r.deploymentStateService.Save { s with CurrentVMCID := c }
            (r.deploymentStateService.Load w.store).2).1 = some e) ∧
      ((r.UpdateCurrentAgentId a w).1 ≠ none ↔
        (∃ e, (r.deploymentStateService.Load w.store).1 = Except.error e) ∨
        ∃ s e, (r.deploymentStateService.Load w.store).1 = Except.ok s ∧
          (r.deploymentStateService.Save { s with CurrentAgentID := a }
            (r.deploymentStateService.Load w.store).2).1 = some e) ∧
      ((r.ClearCurrent w).1 ≠ none ↔
        (∃ e, (r.deploymentStateService.Load w.store).1 = Except.error e) ∨
        ∃ s e, (r.deploymentStateService.Load w.store).1 = Except.ok s ∧
          (r.deploymentStateService.Save
            { CurrentVMCID := "", CurrentAgentID := "", otherFields := s.otherFields }
            (r.deploymentStateService.Load w.store).2).1 = some e)) ∧
    (∀ e, (r.deploymentStateService.Load w.store).1 = Except.error e →
      (r.FindCurrent w).1 =
        ("", false, some (GoError.wrapped "Loading existing config" e)) ∧
      (r.FindCurrentAgentId w).1 =
        ("", false, some (GoError.wrapped "Loading existing config" e)) ∧
      (r.UpdateCurrent c w).1 = some (GoError.wrapped "Loading existing config" e) ∧
      (r.UpdateCurrentAgentId a w).1 = some (GoError.wrapped "Loading existing config" e) ∧
      (r.ClearCurrent w).1 = some (GoError.wrapped "Loading existing config" e)) ∧
    (∀ s e, (r.deploymentStateService.Load w.store).1 = Except.ok s →
      ((r.deploymentStateService.Save { s with CurrentVMCID := c }
          (r.deploymentStateService.Load w.store).2).1 = some e →
        (r.UpdateCurrent c w).1 = some (GoError.wrapped "Saving new config" e)) ∧
      ((r.deploymentStateService.Save { s with CurrentAgentID := a }
          (r.deploymentStateService.Load w.store).2).1 = some e →
        (r.UpdateCurrentAgentId a w).1 = some (GoError.wrapped "Saving new config" e)) ∧
      ((r.deploymentStateService.Save
          { CurrentVMCID := "", CurrentAgentID := "", otherFields := s.otherFields }
          (r.deploymentStateService.Load w.store).2).1 = some e →
        (r.ClearCurrent w).1 = some (GoError.wrapped "Saving new config" e))) := by
  refine ⟨?_, ?_, ?_⟩
  · cases hl : (r.deploymentStateService.Load w.store).1 with
    | error e =>
      rw [FindCurrent_of_load_error r w e hl, FindCurrentAgentId_of_load_error r w e hl,
        UpdateCurrent_of_load_error r c w e hl, UpdateCurrentAgentId_of_load_error r a w e hl,
        ClearCurrent_of_load_error r w e hl]
      simp
    | ok s =>
      rw [FindCurrent_of_load r w s hl, FindCurrentAgentId_of_load r w s hl,
        UpdateCurrent_of_load r c w s hl, UpdateCurrentAgentId_of_load r a w s hl,
        ClearCurrent_of_load r w s hl]
      refine ⟨?_, ?_, ?_, ?_, ?_⟩
      · by_cases h : s.CurrentVMCID = "" <;> simp [h]
      · by_cases h : s.CurrentAgentID = "" <;> simp [h]
      · cases hs : (r.deploymentStateService.Save { s with CurrentVMCID := c }
          (r.deploymentStateService.Load w.store).2).1 <;> simp [hs]
      · cases hs : (r.deploymentStateService.Save { s with CurrentAgentID := a }
          (r.deploymentStateService.Load w.store).2).1 <;> simp [hs]
      · cases hs : (r.deploymentStateService.Save
          { CurrentVMCID := "", CurrentAgentID := "", otherFields := s.otherFields }
          (r.deploymentStateService.Load w.store).2).1 <;> simp [hs]
  · intro e hl
    rw [FindCurrent_of_load_error r w e hl, FindCurrentAgentId_of_load_error r w e hl,
      UpdateCurrent_of_load_error r c w e hl, UpdateCurrentAgentId_of_load_error r a w e hl,
      ClearCurrent_of_load_error r w e hl]
    exact ⟨rfl, rfl, rfl, rfl, rfl⟩
  · intro s e hl
    rw [UpdateCurrent_of_load r c w s hl, UpdateCurrentAgentId_of_load r a w s hl,
      ClearCurrent_of_load r w s hl]
    refine ⟨?_, ?_, ?_⟩ <;> intro hs <;> simp only [hs] <;> rfl

/-- Witness for C14: a store whose `Load` fails, and a store whose `Save` fails. -/
theorem vMRepo_error_iff_store_error_witness :
    (loadFailingRepo.FindCurrent recordedWorld).1 =
        ("", false, some (GoError.wrapped "Loading existing config"
          (GoError.plain "unreadable state file"))) ∧
      (saveFailingRepo.UpdateCurrent "c1" recordedWorld).1 =
        some (GoError.wrapped "Saving new config" (GoError.plain "disk full")) :=
  ⟨((vMRepo_error_iff_store_error loadFailingRepo recordedWorld "c1" "a1").2.1
      (GoError.plain "unreadable state file") rfl).1,
    ((vMRepo_error_iff_store_error saveFailingRepo recordedWorld "c1" "a1").2.2
      recordedWorld.store (GoError.plain "disk full") rfl).1 rfl⟩

/-- C16. `manager.FindCurrent` delegates to `vMRepo.FindCurrent` and makes no other call: its
final world is the repo's, one `Load` being the only call made. If the repo returns
`(cid, true, nil)` it returns a handle bound to exactly `cid`, `true` and nil; if the repo
returns `found = false` with a nil error it returns `(nil, false, nil)`; its error is non-nil
iff the repo's is, and then the result is `(nil, false, err)` with the repo's error wrapped
with "Finding currently deployed vm". -/
theorem manager_FindCurrent_delegates (m : manager σ) (w : World σ) :
    (m.FindCurrent w).2 = (m.vmRepo.FindCurrent w).2 ∧
      (m.FindCurrent w).2.trace = w.trace ++ [Call.Load] ∧
      (∀ cid, (m.vmRepo.FindCurrent w).1 = (cid, true, none) →
        (m.FindCurrent w).1 = (some (NewVM cid), true, none) ∧ (NewVM cid).cid = cid) ∧
      (∀ cid, (m.vmRepo.FindCurrent w).1 = (cid, false, none) →
        (m.FindCurrent w).1 = (none, false, none)) ∧
      ((m.FindCurrent w).1.2.2 ≠ none ↔ (m.vmRepo.FindCurrent w).1.2.2 ≠ none) ∧
      (∀ cid found e, (m.vmRepo.FindCurrent w).1 = (cid, found, some e) →
        (m.FindCurrent w).1 =
          (none, false, some (GoError.wrapped "Finding currently deployed vm" e))) := by
  refine ⟨manager_FindCurrent_world m w, ?_, ?_⟩
  · rw [manager_FindCurrent_world m w, FindCurrent_world]
  · unfold manager.FindCurrent
    rcases m.vmRepo.FindCurrent w with ⟨⟨cid, found, err⟩, w1⟩
    cases err with
    | some e =>
      refine ⟨?_, ?_, ?_, ?_⟩
      · intro c h; simp at h
      · intro c h; simp at h
      · simp
      · intro c f e0 h
        simp only [Prod.mk.injEq, Option.some.injEq] at h
        obtain ⟨_, _, rfl⟩ := h
        rfl
    | none =>
      cases found with
      | true =>
        refine ⟨?_, ?_, ?_, ?_⟩
        · intro c h
          simp only [Prod.mk.injEq, and_true] at h
          subst h
          exact ⟨rfl, rfl⟩
        · intro c h; simp at h
        · simp
        · intro c f e0 h; simp at h
      | false =>
        refine ⟨?_, ?_, ?_, ?_⟩
        · intro c h; simp at h
        · intro c _; rfl
        · simp
        · intro c f e0 h; simp at h

/-- Witness for C16: the store holds `c0`. -/
theorem manager_FindCurrent_delegates_witness :
    (findVMFailingManager.FindCurrent recordedWorld).1 = (some (NewVM "c0"), true, none) ∧
      (NewVM "c0").cid = "c0" :=
  (manager_FindCurrent_delegates findVMFailingManager recordedWorld).2.2.1 "c0" rfl

/-- C18. If `Load` fails, `UpdateCurrent`, `UpdateCurrentAgentId` and `ClearCurrent` make no
further call: their final world is the one right after that `Load`, with no `Save` logged, so
any reading of the store that this `Load` leaves unchanged is unchanged by the operation. And
every record-store operation calls `Load` exactly once, first, and `Save` at most once: the
finds make the single call `Load`; the updates and `ClearCurrent` make `Load` alone or `Load`
followed by one `Save`. -/
theorem vMRepo_no_save_after_failed_load (r : vMRepo σ) (w : World σ) (c a : String) :
    (∀ e, (r.deploymentStateService.Load w.store).1 = Except.error e →
      ((r.UpdateCurrent c w).2 =
          { store := (r.deploymentStateService.Load w.store).2,
            trace := w.trace ++ [Call.Load] } ∧
        (r.UpdateCurrentAgentId a w).2 =
          { store := (r.deploymentStateService.Load w.store).2,
            trace := w.trace ++ [Call.Load] } ∧
        (r.ClearCurrent w).2 =
          { store := (r.deploymentStateService.Load w.store).2,
            trace := w.trace ++ [Call.Load] }) ∧
      ∀ snapshot : σ → DeploymentState,
        snapshot (r.deploymentStateService.Load w.store).2 = snapshot w.store →
          snapshot (r.UpdateCurrent c w).2.store = snapshot w.store ∧
          snapshot (r.UpdateCurrentAgentId a w).2.store = snapshot w.store ∧
          snapshot (r.ClearCurrent w).2.store = snapshot w.store) ∧
    (r.FindCurrent w).2.trace = w.trace ++ [Call.Load] ∧
    (r.FindCurrentAgentId w).2.trace = w.trace ++ [Call.Load] ∧
    ((r.UpdateCurrent c w).2.trace = w.trace ++ [Call.Load] ∨
      ∃ d, (r.UpdateCurrent c w).2.trace = w.trace ++ [Call.Load, Call.Save d]) ∧
    ((r.UpdateCurrentAgentId a w).2.trace = w.trace ++ [Call.Load] ∨
      ∃ d, (r.UpdateCurrentAgentId a w).2.trace = w.trace ++ [Call.Load, Call.Save d]) ∧
    ((r.ClearCurrent w).2.trace = w.trace ++ [Call.Load] ∨
      ∃ d, (r.ClearCurrent w).2.trace = w.trace ++ [Call.Load, Call.Save d]) := by
  refine ⟨?_, ?_, ?_, UpdateCurrent_trace r c w, UpdateCurrentAgentId_trace r a w,
    ClearCurrent_trace r w⟩
  · intro e hl
    rw [UpdateCurrent_of_load_error r c w e hl, UpdateCurrentAgentId_of_load_error r a w e hl,
      ClearCurrent_of_load_error r w e hl]
    exact ⟨⟨rfl, rfl, rfl⟩, fun _ h => ⟨h, h, h⟩⟩
  · rw [FindCurrent_world]
  · rw [FindCurrentAgentId_world]

/-- Witness for C18: a store that holds `c0` and `a0` and whose `Load` fails. -/
theorem vMRepo_no_save_after_failed_load_witness :
    (loadFailingRepo.UpdateCurrent "c1" recordedWorld).2.store = recordedWorld.store ∧
      (loadFailingRepo.UpdateCurrentAgentId "a1" recordedWorld).2.store = recordedWorld.store ∧
      (loadFailingRepo.ClearCurrent recordedWorld).2.store = recordedWorld.store :=
  ((vMRepo_no_save_after_failed_load loadFailingRepo recordedWorld "c1" "a1").1
    (GoError.plain "unreadable state file") rfl).2 id rfl

/-- C19. The read operations never call `Save`: for every state store, the only call that
`vMRepo.FindCurrent`, `vMRepo.FindCurrentAgentId` and `manager.FindCurrent` make is one `Load`,
whether it succeeds or fails, and their final store state is the one that `Load` returned; so
any reading of the store that this `Load` leaves unchanged is the same after the call as
before it. -/
theorem reads_never_save (r : vMRepo σ) (m : manager σ) (w : World σ) :
    ((r.FindCurrent w).2 =
        { store := (r.deploymentStateService.Load w.store).2,
          trace := w.trace ++ [Call.Load] } ∧
      (r.FindCurrentAgentId w).2 =
        { store := (r.deploymentStateService.Load w.store).2,
          trace := w.trace ++ [Call.Load] } ∧
      (m.FindCurrent w).2 =
        { store := (m.vmRepo.deploymentStateService.Load w.store).2,
          trace := w.trace ++ [Call.Load] }) ∧
    (∀ snapshot : σ → DeploymentState,
      snapshot (r.deploymentStateService.Load w.store).2 = snapshot w.store →
        snapshot (r.FindCurrent w).2.store = snapshot w.store ∧
        snapshot (r.FindCurrentAgentId w).2.store = snapshot w.store) ∧
    (∀ snapshot : σ → DeploymentState,
      snapshot (m.vmRepo.deploymentStateService.Load w.store).2 = snapshot w.store →
        snapshot (m.FindCurrent w).2.store = snapshot w.store) := by
  rw [manager_FindCurrent_world m w, FindCurrent_world, FindCurrent_world,
    FindCurrentAgentId_world]
  exact ⟨⟨rfl, rfl, rfl⟩, fun _ h => ⟨h, h⟩, fun _ h => h⟩

/-- Witness for C19: one read that succeeds and one whose `Load` fails. -/
theorem reads_never_save_witness :
    ((NewVMRepo memoryStore).FindCurrent recordedWorld).2.store = recordedWorld.store ∧
      (loadFailingRepo.FindCurrentAgentId recordedWorld).2.store = recordedWorld.store ∧
      (findVMFailingManager.FindCurrent recordedWorld).2.store = recordedWorld.store :=
  ⟨((reads_never_save (NewVMRepo memoryStore) findVMFailingManager recordedWorld).2.1 id
      rfl).1,
    ((reads_never_save loadFailingRepo findVMFailingManager recordedWorld).2.1 id rfl).2,
    (reads_never_save (NewVMRepo memoryStore) findVMFailingManager recordedWorld).2.2 id rfl⟩

/-- C20. The updates accept the empty identifier: over a faithful state store, for every
initial world, `UpdateCurrent(c)` returns nil for every `c`, also the empty one, and a
`FindCurrent()` after `UpdateCurrent("")` returns `("", false, nil)`; so `UpdateCurrent(c)`
followed by `FindCurrent()` gives `(c, true, nil)` exactly when `c` is not empty. The same
holds for `UpdateCurrentAgentId` and `FindCurrentAgentId`. -/
theorem update_accepts_empty_identifier (r : vMRepo σ) (snapshot : σ → DeploymentState)
    (hf : Faithful r.deploymentStateService snapshot) (w : World σ) :
    ((r.UpdateCurrent "" w).1 = none ∧
      (r.FindCurrent (r.UpdateCurrent "" w).2).1 = ("", false, none) ∧
      (∀ c, (r.UpdateCurrent c w).1 = none) ∧
      (∀ c, (r.FindCurrent (r.UpdateCurrent c w).2).1 = (c, true, none) ↔ c ≠ "")) ∧
    ((r.UpdateCurrentAgentId "" w).1 = none ∧
      (r.FindCurrentAgentId (r.UpdateCurrentAgentId "" w).2).1 = ("", false, none) ∧
      (∀ a, (r.UpdateCurrentAgentId a w).1 = none) ∧
      (∀ a, (r.FindCurrentAgentId (r.UpdateCurrentAgentId a w).2).1 = (a, true, none) ↔
        a ≠ "")) := by
  have hfc : ∀ c, (r.FindCurrent (r.UpdateCurrent c w).2).1 =
      (if c ≠ "" then (c, true, none) else ("", false, none)) := by
    intro c
    rw [(faithful_FindCurrent r snapshot hf _).1, (faithful_UpdateCurrent r snapshot hf c w).2.1]
  have hfa : ∀ a, (r.FindCurrentAgentId (r.UpdateCurrentAgentId a w).2).1 =
      (if a ≠ "" then (a, true, none) else ("", false, none)) := by
    intro a
    rw [(faithful_FindCurrentAgentId r snapshot hf _).1,
      (faithful_UpdateCurrentAgentId r snapshot hf a w).2.1]
  refine ⟨⟨(faithful_UpdateCurrent r snapshot hf "" w).1, ?_,
      fun c => (faithful_UpdateCurrent r snapshot hf c w).1, ?_⟩,
    ⟨(faithful_UpdateCurrentAgentId r snapshot hf "" w).1, ?_,
      fun a => (faithful_UpdateCurrentAgentId r snapshot hf a w).1, ?_⟩⟩
  · rw [hfc]; simp
  · intro c
    rw [hfc]
    by_cases h : c = "" <;> simp [h]
  · rw [hfa]; simp
  · intro a
    rw [hfa]
    by_cases h : a = "" <;> simp [h]

/-- Witness for C20 on the in-memory store holding `c0` and `a0`. -/
theorem update_accepts_empty_identifier_witness :
    ((NewVMRepo memoryStore).UpdateCurrent "" recordedWorld).1 = none ∧
      ((NewVMRepo memoryStore).FindCurrent
        ((NewVMRepo memoryStore).UpdateCurrent "" recordedWorld).2).1 = ("", false, none) :=
  ⟨(update_accepts_empty_identifier (NewVMRepo memoryStore) id memoryStore_faithful
      recordedWorld).1.1,
    (update_accepts_empty_identifier (NewVMRepo memoryStore) id memoryStore_faithful
      recordedWorld).1.2.1⟩

end RepoClaims

end BoshInit
